import Mathlib

/-!
Verification development for the food-logging backend (`server.js`).

The server is a single-file Express backend: base64 helpers, an OpenAI
vision recognition call, six nutrition provider adapters, and an
analyze pipeline that chains recognition into a provider lookup.

We embed the code shallowly:
* JavaScript/JSON values are modelled by the inductive type `JVal`
  (with `jnan` for the JS `NaN` number and `jundef` for `undefined`);
* every outbound network call is replaced by a mocked result supplied
  through an environment record, and the functions under scrutiny
  return, besides their value, the list of calls they performed;
* `JSON.parse` is modelled by an executable recursive-descent parser
  (`jsonParse`), and `parseFloat` / `Number` by executable models of
  the corresponding JavaScript coercions.
-/

/-- A JavaScript value as it can appear in a JSON body or as the result
of `JSON.parse`; `jundef` models `undefined`, `jnan` models the number
`NaN` (which JSON itself cannot produce but `parseFloat` can). -/
inductive JVal where
  | jundef : JVal
  | jnull : JVal
  | jbool : Bool → JVal
  | jnum : Rat → JVal
  | jnan : JVal
  | jstr : String → JVal
  | jarr : List JVal → JVal
  | jobj : List (String × JVal) → JVal

open JVal

/-- JavaScript truthiness: `undefined`, `null`, `false`, `0`, `NaN` and
the empty string are falsy; every object and array is truthy. -/
def truthy : JVal → Bool
  | jundef => false
  | jnull => false
  | jbool b => b
  | jnum q => !(q == 0)
  | jnan => false
  | jstr s => !(s == "")
  | jarr _ => true
  | jobj _ => true

/-- JavaScript `a || b`. -/
def jsOr (a b : JVal) : JVal := if truthy a then a else b

/-- JavaScript `a && b`. -/
def jsAnd (a b : JVal) : JVal := if truthy a then b else a

/-- Lookup of a key in an association list of object fields; an absent
key reads as `undefined`. -/
def lookupField : List (String × JVal) → String → JVal
  | [], _ => jundef
  | (k, v) :: t, key => if k == key then v else lookupField t key

/-- JavaScript property access `v.key` (guarded uses only: on a
non-object it reads as `undefined`). -/
def getField : JVal → String → JVal
  | jobj fs, key => lookupField fs key
  | _, _ => jundef

/-- Replace the value of a key in a field list, or append it. -/
def setFieldList : List (String × JVal) → String → JVal → List (String × JVal)
  | [], k, v => [(k, v)]
  | (k0, v0) :: t, k, v =>
    if k0 == k then (k0, v) :: t else (k0, v0) :: setFieldList t k v

/-- JavaScript property assignment `v.key = x` (a no-op on
non-objects, as in non-strict mode). -/
def setField : JVal → String → JVal → JVal
  | jobj fs, k, v => jobj (setFieldList fs k v)
  | w, _, _ => w

/-- JavaScript indexed access `v[i]`: array element, or the string
field `"i"` of an object, otherwise `undefined`. -/
def jsGet (v : JVal) (i : Nat) : JVal :=
  match v with
  | jarr xs => xs.getD i jundef
  | jobj fs => lookupField fs (toString i)
  | _ => jundef

/-- Is the value an object literal? -/
def isObj : JVal → Bool
  | jobj _ => true
  | _ => false

/-- Strict equality with the number `0` (`v === 0`). -/
def isNumZero : JVal → Bool
  | jnum q => q == 0
  | _ => false

/-- Is the value `undefined`? (used for `v !== undefined` tests). -/
def isUndef : JVal → Bool
  | jundef => true
  | _ => false

-- ---------- String utilities ----------

/-- `pat` is a prefix of `s` (character lists). -/
def startsWithL : List Char → List Char → Bool
  | _, [] => true
  | [], _ :: _ => false
  | c :: s, p :: ps => c == p && startsWithL s ps

/-- Index of the first occurrence of `pat` inside the list, counting
from `i`; `none` when there is none (JS `indexOf` returning `-1`). -/
def indexOfAux (pat : List Char) : List Char → Nat → Option Nat
  | [], i => if startsWithL [] pat then some i else none
  | c :: t, i =>
    if startsWithL (c :: t) pat then some i else indexOfAux pat t (i + 1)

/-- Index of the first occurrence of a character (JS `indexOf`). -/
def charIndexOf : List Char → Char → Option Nat
  | [], _ => none
  | a :: t, c => if a == c then some 0 else (charIndexOf t c).map (· + 1)

/-- Index of the last occurrence of a character (JS `lastIndexOf`). -/
def charLastIndexOf : List Char → Char → Option Nat
  | [], _ => none
  | a :: t, c =>
    match charLastIndexOf t c with
    | some i => some (i + 1)
    | none => if a == c then some 0 else none

/-- Does the list contain `pat` as a contiguous substring? -/
def containsSub (s pat : List Char) : Bool :=
  (indexOfAux pat s 0).isSome

-- ---------- server.js lines 32-40: base64 helpers ----------

/-- The marker searched for by `stripBase64Prefix`. -/
def base64Marker : List Char := ['b', 'a', 's', 'e', '6', '4', ',']

/-- server.js `stripBase64Prefix`: `if (!b64) return b64;` then cut
everything up to and including the first occurrence of `"base64,"`. -/
def stripBase64Prefix (b64 : List Char) : List Char :=
  match b64 with
  | [] => []
  | _ =>
    match indexOfAux base64Marker b64 0 with
    | some idx => b64.drop (idx + 7)
    | none => b64

/-- The data-URL form `data:<mime>;base64,<payload>`. -/
def mkDataUrl (mime payload : List Char) : List Char :=
  "data:".toList ++ mime ++ ";base64,".toList ++ payload

/-- A character of the standard base64 alphabet (with padding). -/
def isBase64Char (c : Char) : Bool :=
  c.isAlphanum || c == '+' || c == '/' || c == '='

/-- The base64 alphabet in encoding order. -/
def b64Alphabet : List Char :=
  ['A','B','C','D','E','F','G','H','I','J','K','L','M','N','O','P',
   'Q','R','S','T','U','V','W','X','Y','Z','a','b','c','d','e','f',
   'g','h','i','j','k','l','m','n','o','p','q','r','s','t','u','v',
   'w','x','y','z','0','1','2','3','4','5','6','7','8','9','+','/']

/-- One sextet to a base64 character. -/
def b64Char (i : Nat) : Char := b64Alphabet.getD i 'A'

/-- Base64 encoding of a byte list (model of
`buffer.toString('base64')`). -/
def base64Encode : List Nat → List Char
  | [] => []
  | [a] => [b64Char (a / 4), b64Char (a % 4 * 16), '=', '=']
  | [a, b] => [b64Char (a / 4), b64Char (a % 4 * 16 + b / 16),
               b64Char (b % 16 * 4), '=']
  | a :: b :: c :: rest =>
    b64Char (a / 4) :: b64Char (a % 4 * 16 + b / 16) ::
    b64Char (b % 16 * 4 + c / 64) :: b64Char (c % 64) ::
    base64Encode rest

/-- server.js `bufferToDataUrl(buffer, mime = 'image/jpeg')`. -/
def bufferToDataUrl (buffer : List Nat) (mime : List Char) : List Char :=
  mkDataUrl mime (base64Encode buffer)

-- ---------- A model of JSON.parse ----------

/-- Skip JSON whitespace. -/
def skipWs : List Char → List Char
  | c :: t =>
    if c == ' ' || c == '\t' || c == '\n' || c == '\r' then skipWs t
    else c :: t
  | [] => []

/-- Leading decimal digits of a list, with the rest. -/
def takeDigits : List Char → List Char × List Char
  | c :: t =>
    if c.isDigit then
      let p := takeDigits t
      (c :: p.1, p.2)
    else ([], c :: t)
  | [] => ([], [])

/-- Numeric value of a digit list. -/
def digitsVal (ds : List Char) : Nat :=
  ds.foldl (fun a c => a * 10 + (c.toNat - 48)) 0

/-- Value of a hex digit. -/
def hexVal (c : Char) : Option Nat :=
  if c.isDigit then some (c.toNat - 48)
  else if 'a' ≤ c && c ≤ 'f' then some (c.toNat - 87)
  else if 'A' ≤ c && c ≤ 'F' then some (c.toNat - 55)
  else none

/-- Four hex digits to a code point. -/
def hex4 (a b c d : Char) : Option Nat :=
  match hexVal a, hexVal b, hexVal c, hexVal d with
  | some x, some y, some z, some w => some (x * 4096 + y * 256 + z * 16 + w)
  | _, _, _, _ => none

/-- Body of a JSON string after the opening quote: collected characters
(in reverse) and the input; yields the string and the rest. -/
def jstrBody : List Char → List Char → Option (String × List Char)
  | [], _ => none
  | '"' :: r, acc => some (String.mk acc.reverse, r)
  | '\\' :: '"' :: r, acc => jstrBody r ('"' :: acc)
  | '\\' :: '\\' :: r, acc => jstrBody r ('\\' :: acc)
  | '\\' :: '/' :: r, acc => jstrBody r ('/' :: acc)
  | '\\' :: 'b' :: r, acc => jstrBody r ('\x08' :: acc)
  | '\\' :: 'f' :: r, acc => jstrBody r ('\x0c' :: acc)
  | '\\' :: 'n' :: r, acc => jstrBody r ('\n' :: acc)
  | '\\' :: 'r' :: r, acc => jstrBody r ('\r' :: acc)
  | '\\' :: 't' :: r, acc => jstrBody r ('\t' :: acc)
  | '\\' :: 'u' :: h1 :: h2 :: h3 :: h4 :: r2, acc =>
    (match hex4 h1 h2 h3 h4 with
     | some n => jstrBody r2 (Char.ofNat n :: acc)
     | none => none)
  | '\\' :: _ :: _, _ => none
  | ['\\'], _ => none
  | c :: r, acc => if c.toNat < 32 then none else jstrBody r (c :: acc)

/-- A JSON string literal, starting at the opening quote. -/
def jsonString (s : List Char) : Option (String × List Char) :=
  match s with
  | '"' :: r => jstrBody r []
  | _ => none

/-- Exponent suffix of a JSON number: `[eE][+-]?digits`, scaling `q`. -/
def jsonNumExp (q : Rat) (s : List Char) : Option (Rat × List Char) :=
  match s with
  | 'e' :: t | 'E' :: t =>
    let signed := match t with
      | '+' :: u => (false, u)
      | '-' :: u => (true, u)
      | _ => (false, t)
    let ds := takeDigits signed.2
    if ds.1 == [] then none
    else
      let e := digitsVal ds.1
      some ((if signed.1 then q / 10 ^ e else q * 10 ^ e), ds.2)
  | _ => some (q, s)

/-- Fraction and exponent of a JSON number after the integer part. -/
def jsonNumFrac (n : Nat) (neg : Bool) (s : List Char) :
    Option (Rat × List Char) :=
  let withSign : Rat → Rat := fun q => if neg then -q else q
  match s with
  | '.' :: t =>
    let ds := takeDigits t
    if ds.1 == [] then none
    else
      jsonNumExp (withSign ((n : Rat) + (digitsVal ds.1 : Rat) / 10 ^ ds.1.length)) ds.2
  | _ => jsonNumExp (withSign (n : Rat)) s

/-- A JSON number literal (sign, integer part without leading zeros,
fraction, exponent). -/
def jsonNumber (s : List Char) : Option (Rat × List Char) :=
  let signed := match s with
    | '-' :: t => (true, t)
    | _ => (false, s)
  match signed.2 with
  | '0' :: t =>
    match t with
    | d :: _ => if d.isDigit then none else jsonNumFrac 0 signed.1 t
    | [] => jsonNumFrac 0 signed.1 []
  | c :: t =>
    if c.isDigit then
      let ds := takeDigits t
      jsonNumFrac (digitsVal (c :: ds.1)) signed.1 ds.2
    else none
  | [] => none

/-- A pending composite value during parsing: an array with the
elements collected so far, or an object with the fields collected so
far and the key whose value is being parsed. -/
inductive PFrame where
  | arr : List JVal → PFrame
  | obj : List (String × JVal) → String → PFrame

/-- Parser state: expecting a value, or holding a finished value to be
attached to the enclosing frame. -/
inductive PState where
  | pvalue : List Char → List PFrame → PState
  | pafter : JVal → List Char → List PFrame → PState

/-- One fuelled run of the JSON value parser (model of the grammar
`JSON.parse` accepts); duplicate object keys keep the last value, as
in JavaScript. -/
def jsonRun : Nat → PState → Option (JVal × List Char)
  | 0, _ => none
  | Nat.succ fuel, PState.pvalue s stk =>
    match skipWs s with
    | '{' :: t =>
      (match skipWs t with
       | '}' :: r => jsonRun fuel (PState.pafter (jobj []) r stk)
       | r =>
         match jsonString r with
         | some (k, r1) =>
           (match skipWs r1 with
            | ':' :: r2 => jsonRun fuel (PState.pvalue r2 (PFrame.obj [] k :: stk))
            | _ => none)
         | none => none)
    | '[' :: t =>
      (match skipWs t with
       | ']' :: r => jsonRun fuel (PState.pafter (jarr []) r stk)
       | r => jsonRun fuel (PState.pvalue r (PFrame.arr [] :: stk)))
    | '"' :: t =>
      (match jstrBody t [] with
       | some (str, r) => jsonRun fuel (PState.pafter (jstr str) r stk)
       | none => none)
    | 't' :: 'r' :: 'u' :: 'e' :: r => jsonRun fuel (PState.pafter (jbool true) r stk)
    | 'f' :: 'a' :: 'l' :: 's' :: 'e' :: r => jsonRun fuel (PState.pafter (jbool false) r stk)
    | 'n' :: 'u' :: 'l' :: 'l' :: r => jsonRun fuel (PState.pafter jnull r stk)
    | r =>
      match jsonNumber r with
      | some (q, r1) => jsonRun fuel (PState.pafter (jnum q) r1 stk)
      | none => none
  | Nat.succ fuel, PState.pafter v s stk =>
    match stk with
    | [] => some (v, s)
    | PFrame.arr acc :: stk1 =>
      (match skipWs s with
       | ',' :: r => jsonRun fuel (PState.pvalue r (PFrame.arr (acc ++ [v]) :: stk1))
       | ']' :: r => jsonRun fuel (PState.pafter (jarr (acc ++ [v])) r stk1)
       | _ => none)
    | PFrame.obj acc k :: stk1 =>
      let acc1 := setFieldList acc k v
      (match skipWs s with
       | ',' :: r =>
         (match jsonString (skipWs r) with
          | some (k2, r1) =>
            (match skipWs r1 with
             | ':' :: r2 => jsonRun fuel (PState.pvalue r2 (PFrame.obj acc1 k2 :: stk1))
             | _ => none)
          | none => none)
       | '}' :: r => jsonRun fuel (PState.pafter (jobj acc1) r stk1)
       | _ => none)

/-- Model of `JSON.parse`: one JSON value, then only whitespace. -/
def jsonParse (s : List Char) : Option JVal :=
  match jsonRun (2 * s.length + 4) (PState.pvalue s []) with
  | some (v, rest) => if skipWs rest == [] then some v else none
  | none => none

-- ---------- Models of JS numeric coercions ----------

/-- Leading-prefix float parse used by `parseFloat`: optional sign,
digits with an optional fraction, optional exponent; the rest of the
string is ignored. -/
def parseFloatStr (s : List Char) : Option Rat :=
  let s1 := skipWs s
  let signed := match s1 with
    | '-' :: t => (true, t)
    | '+' :: t => (false, t)
    | _ => (false, s1)
  let ip := takeDigits signed.2
  let fp := match ip.2 with
    | '.' :: t => takeDigits t
    | _ => ([], ip.2)
  if ip.1 == [] && fp.1 == [] then none
  else
    let base : Rat := (digitsVal ip.1 : Rat) + (digitsVal fp.1 : Rat) / 10 ^ fp.1.length
    let scaled := match jsonNumExp base fp.2 with
      | some (q, _) => q
      | none => base
    some (if signed.1 then -scaled else scaled)

/-- Model of JavaScript `parseFloat(v)`: the argument is stringified
first, so numbers pass through and non-numeric text gives `NaN`. -/
def parseFloatJS : JVal → JVal
  | jnum q => jnum q
  | jstr s =>
    match parseFloatStr s.toList with
    | some q => jnum q
    | none => jnan
  | _ => jnan

/-- `parseFloat(v) || 0` as used by the FatSecret adapter: `NaN` (and
`0` itself) collapse to `0`. -/
def parseFloatOr0 (v : JVal) : Rat :=
  match parseFloatJS v with
  | jnum q => q
  | _ => 0

/-- Model of JavaScript `Number(str)`: trimmed empty string is `0`,
otherwise the whole string must be a decimal literal (`none` = NaN).
Hex/Infinity forms are not modelled. -/
def strToNumber (s : String) : Option Rat :=
  let t := (skipWs s.toList.reverse).reverse
  let t2 := skipWs t
  if t2 == [] then some 0
  else
    let signed := match t2 with
      | '-' :: u => (true, u)
      | '+' :: u => (false, u)
      | _ => (false, t2)
    let ip := takeDigits signed.2
    let fp := match ip.2 with
      | '.' :: u => takeDigits u
      | _ => ([], ip.2)
    if ip.1 == [] && fp.1 == [] then none
    else
      let base : Rat := (digitsVal ip.1 : Rat) + (digitsVal fp.1 : Rat) / 10 ^ fp.1.length
      match jsonNumExp base fp.2 with
      | some (q, rest) =>
        if rest == [] then some (if signed.1 then -q else q) else none
      | none => none

/-- Model of JavaScript `Number(v)` on the values a JSON request body
can carry (`none` = NaN; array/object coercion is not modelled). -/
def toNumber : JVal → Option Rat
  | jnum q => some q
  | jnan => none
  | jbool b => some (if b then 1 else 0)
  | jnull => some 0
  | jundef => none
  | jstr s => strToNumber s
  | jarr _ => none
  | jobj _ => none

/-- The request value is a primitive, so that `toNumber` is a faithful
model of `Number` on it. -/
def isPrim : JVal → Bool
  | jarr _ => false
  | jobj _ => false
  | _ => true

-- ---------- server.js lines 43-75: OpenAI Vision recognition ----------

/-- server.js `analyzeWithOpenAI`, lines 45-46: the data URL actually
sent upstream for an incoming `imageBase64` payload. -/
def analyzeWithOpenAISentUrl (imageBase64 : List Char) : List Char :=
  "data:image/jpeg;base64,".toList ++ stripBase64Prefix imageBase64

-- ---------- server.js lines 78-120: OpenAI nutrition from image ----------

/-- server.js `getNutritionFromOpenAIImage`, lines 80-81: the data URL
sent upstream. -/
def getNutritionFromOpenAIImageSentUrl (imageBase64 : List Char) : List Char :=
  "data:image/jpeg;base64,".toList ++ stripBase64Prefix imageBase64

/-- server.js lines 110-113: `out.indexOf('\x7b')`,
`out.lastIndexOf('\x7d')`, fail when either is `-1`, otherwise
`out.slice(first, last + 1)`. -/
def extractJsonText (out : List Char) : Option (List Char) :=
  match charIndexOf out '{', charLastIndexOf out '}' with
  | some first, some last => some ((out.drop first).take (last + 1 - first))
  | _, _ => none

/-- server.js lines 109-119 (`getNutritionFromOpenAIImage` applied to
the model response text `out`): extract the brace span, `JSON.parse`
it, and let the catch block wrap any failure into the single adapter
error. -/
def getNutritionFromOpenAIImageCore (out : List Char) : Except String JVal :=
  match extractJsonText out with
  | none =>
    Except.error ("OpenAI Nutrition image analysis failed: OpenAI nutrition output not JSON: "
      ++ String.mk out)
  | some jsonText =>
    match jsonParse jsonText with
    | some parsed => Except.ok parsed
    | none => Except.error "OpenAI Nutrition image analysis failed: JSON.parse error"

-- ---------- server.js lines 125-146: Tab 1, Edamam nutrition-data ----------

/-- server.js lines 135-141: the record `getNutritionEdamam1` builds
from a response body — `calories` from the top level and the three
macros from `totalNutrients`, zero-filling with `|| 0`. -/
def edamam1Record (resData : JVal) : JVal :=
  let data := jsOr resData (jobj [])
  let calories := jsOr (getField data "calories") (jnum 0)
  let total := jsOr (getField data "totalNutrients") (jobj [])
  let protein := jsOr
    (jsAnd (getField total "PROCNT") (getField (getField total "PROCNT") "quantity"))
    (jnum 0)
  let carbs := jsOr
    (jsAnd (getField total "CHOCDF") (getField (getField total "CHOCDF") "quantity"))
    (jnum 0)
  let fat := jsOr
    (jsAnd (getField total "FAT") (getField (getField total "FAT") "quantity"))
    (jnum 0)
  jobj [("calories", calories), ("protein", protein),
        ("carbs", carbs), ("fat", fat)]

/-- server.js `getNutritionEdamam1` applied to a successfully
transported response body `resData` (`res.data`); it has no
missing-result check, so it always succeeds. -/
def getNutritionEdamam1 (resData : JVal) : Except String JVal :=
  Except.ok (edamam1Record resData)

-- ---------- server.js lines 149-172: Tab 2, Edamam food-database ----------

/-- server.js line 159, first operand:
`data.parsed && data.parsed[0] && data.parsed[0].food`. -/
def edamam2ParsedFood (data : JVal) : JVal :=
  jsAnd (jsAnd (getField data "parsed") (jsGet (getField data "parsed") 0))
    (getField (jsGet (getField data "parsed") 0) "food")

/-- server.js line 159, second operand:
`data.hints && data.hints[0] && data.hints[0].food`. -/
def edamam2HintFood (data : JVal) : JVal :=
  jsAnd (jsAnd (getField data "hints") (jsGet (getField data "hints") 0))
    (getField (jsGet (getField data "hints") 0) "food")

/-- server.js lines 162-167: the record built from the selected food's
`nutrients`, zero-filled with `|| 0`. -/
def edamam2Record (food : JVal) : JVal :=
  let n := jsOr (getField food "nutrients") (jobj [])
  jobj [("calories", jsOr (getField n "ENERC_KCAL") (jnum 0)),
        ("protein", jsOr (getField n "PROCNT") (jnum 0)),
        ("carbs", jsOr (getField n "CHOCDF") (jnum 0)),
        ("fat", jsOr (getField n "FAT") (jnum 0))]

/-- server.js `getNutritionEdamam2` applied to a successfully
transported response body: prefer the first parsed entry's food, fall
back to the first hint's food, and throw (caught and normalized to
`'Edamam FoodDB failed'`) when neither is there. -/
def getNutritionEdamam2 (resData : JVal) : Except String JVal :=
  let data := jsOr resData (jobj [])
  let food := jsOr (edamam2ParsedFood data) (edamam2HintFood data)
  if truthy food then Except.ok (edamam2Record food)
  else Except.error "Edamam FoodDB failed"

-- ---------- server.js lines 175-220: Tab 3, FatSecret ----------

/-- The three sequential FatSecret calls. -/
inductive FSCall where
  | token : FSCall
  | search : FSCall
  | detail : FSCall
deriving DecidableEq

/-- Mocked transports for the three FatSecret endpoints: an `error` is
a transport failure, an `ok` carries the decoded response body. -/
structure FSEnv where
  tokenResp : Except String JVal
  searchResp : Except String JVal
  detailResp : Except String JVal

/-- server.js lines 191-196: the first matched food of the search
response body. -/
def fsFirstFood (sdata : JVal) : JVal :=
  let foods := jsAnd sdata (jsOr (getField sdata "foods") (getField sdata "food"))
  if truthy foods then
    match getField foods "food" with
    | jarr xs => xs.getD 0 jundef
    | fv => jsOr fv (jsGet foods 0)
  else jundef

/-- server.js lines 205-206: the first serving of the detail response
body. -/
def fsServing (ddata : JVal) : JVal :=
  let foodDetail := jsAnd ddata (getField ddata "food")
  let servings := getField foodDetail "servings"
  let serving := getField servings "serving"
  jsAnd foodDetail (jsAnd (jsAnd servings serving) (jsGet serving 0))

/-- The body of the `try` block of server.js `getNutritionFatSecret`
(lines 176-214): stage-named errors, and the list of endpoint calls
actually performed. -/
def fatSecretInner (env : FSEnv) : Except String JVal × List FSCall :=
  match env.tokenResp with
  | Except.error e => (Except.error e, [FSCall.token])
  | Except.ok tdata =>
    let token := jsAnd tdata (getField tdata "access_token")
    if truthy token then
      match env.searchResp with
      | Except.error e => (Except.error e, [FSCall.token, FSCall.search])
      | Except.ok sdata =>
        let firstFood := fsFirstFood sdata
        if truthy firstFood then
          match env.detailResp with
          | Except.error e =>
            (Except.error e, [FSCall.token, FSCall.search, FSCall.detail])
          | Except.ok ddata =>
            let serving := fsServing ddata
            if truthy serving then
              (Except.ok (jobj
                [("calories", jnum (parseFloatOr0 (getField serving "calories"))),
                 ("protein", jnum (parseFloatOr0 (getField serving "protein"))),
                 ("carbs", jnum (parseFloatOr0 (getField serving "carbohydrate"))),
                 ("fat", jnum (parseFloatOr0 (getField serving "fat")))]),
               [FSCall.token, FSCall.search, FSCall.detail])
            else
              (Except.error "FatSecret: no serving info",
               [FSCall.token, FSCall.search, FSCall.detail])
        else
          (Except.error "FatSecret: no food found", [FSCall.token, FSCall.search])
    else (Except.error "FatSecret token failed", [FSCall.token])

/-- server.js `getNutritionFatSecret`: the catch block (lines 216-219)
logs the inner message and re-throws the generic `'FatSecret failed'`. -/
def getNutritionFatSecret (env : FSEnv) : Except String JVal × List FSCall :=
  match fatSecretInner env with
  | (Except.error _, calls) => (Except.error "FatSecret failed", calls)
  | ok => ok

-- ---------- server.js lines 223-241: Tab 4, OpenFoodFacts ----------

/-- server.js line 228: `res.data && res.data.products && res.data.products[0]`. -/
def offFirstProduct (resData : JVal) : JVal :=
  jsAnd (jsAnd resData (getField resData "products"))
    (jsGet (getField resData "products") 0)

/-- server.js `getNutritionOpenFoodFacts` applied to a successfully
transported response body: first product's `nutriments`, with the two
energy spellings, zero-filled; no product means the caught throw
normalized to `'OpenFoodFacts failed'`. -/
def getNutritionOpenFoodFacts (resData : JVal) : Except String JVal :=
  let product := offFirstProduct resData
  if truthy product then
    let n := jsOr (getField product "nutriments") (jobj [])
    Except.ok (jobj
      [("calories", jsOr (getField n "energy-kcal")
          (jsOr (getField n "energy_kcal") (jnum 0))),
       ("protein", jsOr (getField n "proteins") (jnum 0)),
       ("carbs", jsOr (getField n "carbohydrates") (jnum 0)),
       ("fat", jsOr (getField n "fat") (jnum 0))])
  else Except.error "OpenFoodFacts: not found"

/-- The surfaced form: the catch block rethrows `'OpenFoodFacts failed'`. -/
def getNutritionOpenFoodFactsSurfaced (resData : JVal) : Except String JVal :=
  match getNutritionOpenFoodFacts resData with
  | Except.error _ => Except.error "OpenFoodFacts failed"
  | ok => ok

-- ---------- server.js lines 244-295: Tab 5, Spoonacular ----------

/-- server.js lines 251-257, `parseVal`: falsy values give `0`,
numbers pass through, `\x7bvalue\x7d`/`\x7bamount\x7d` wrappers go
through `parseFloat`, anything else gives `0`. -/
def spoonParseVal (v : JVal) : JVal :=
  if !truthy v then jnum 0
  else
    match v with
    | jnum q => jnum q
    | _ =>
      if !isUndef (getField v "value") then parseFloatJS (getField v "value")
      else if !isUndef (getField v "amount") then parseFloatJS (getField v "amount")
      else jnum 0

/-- server.js line 250: `guessRes.data && (guessRes.data.calories ||
guessRes.data.calories === 0)` as a boolean. -/
def spoonGuessUsable (guessData : JVal) : Bool :=
  truthy guessData &&
    (truthy (getField guessData "calories") || isNumZero (getField guessData "calories"))

/-- The `find` callback of server.js line 280 run down the nutrient
list: skip entries with a falsy `name`, fail (TypeError) on a truthy
non-string `name`, otherwise case-insensitive substring match. -/
def spoonFindAux (name : String) : List JVal → Except String (Option JVal)
  | [] => Except.ok none
  | x :: t =>
    if truthy (getField x "name") then
      match getField x "name" with
      | jstr s =>
        if containsSub s.toLower.toList name.toList then Except.ok (some x)
        else spoonFindAux name t
      | _ => Except.error "TypeError"
    else spoonFindAux name t

/-- server.js lines 279-282, `find(name)`: the found nutrient's
`amount`, or `0` when none matches. -/
def spoonFind (nutrList : List JVal) (name : String) : Except String JVal :=
  match spoonFindAux name nutrList with
  | Except.error e => Except.error e
  | Except.ok (some x) => Except.ok (getField x "amount")
  | Except.ok none => Except.ok (jnum 0)

/-- server.js line 270: `(searchRes.data && searchRes.data.results) || []`. -/
def spoonResults (searchData : JVal) : JVal :=
  jsOr (jsAnd searchData (getField searchData "results")) (jarr [])

/-- Truthiness of `results.length` (server.js line 271). -/
def spoonHasLength : JVal → Bool
  | jarr xs => !(xs.length == 0)
  | jstr s => !(s.length == 0)
  | _ => false

/-- server.js line 278: `infoRes.data && infoRes.data.nutrition &&
infoRes.data.nutrition.nutrients`. -/
def spoonNutr (infoData : JVal) : JVal :=
  jsAnd (jsAnd infoData (getField infoData "nutrition"))
    (getField (getField infoData "nutrition") "nutrients")

/-- The `try` body of server.js `getNutritionSpoonacular` applied to
the three mocked response bodies (guess, ingredient search, ingredient
information): guess branch when it carries a calorie figure, otherwise
the search-and-information fallback. -/
def spoonacularInner (guessData searchData infoData : JVal) :
    Except String JVal :=
  if spoonGuessUsable guessData then
    Except.ok (jobj
      [("calories", spoonParseVal (getField guessData "calories")),
       ("protein", spoonParseVal (getField guessData "protein")),
       ("carbs", spoonParseVal (getField guessData "carbs")),
       ("fat", spoonParseVal (getField guessData "fat"))])
  else if !spoonHasLength (spoonResults searchData) then
    Except.error "Spoonacular: ingredient not found"
  else
    match jsOr (spoonNutr infoData) (jarr []) with
    | jarr nutrList =>
      (match spoonFind nutrList "calories" with
       | Except.error e => Except.error e
       | Except.ok c =>
         match spoonFind nutrList "protein" with
         | Except.error e => Except.error e
         | Except.ok p =>
           match spoonFind nutrList "carbohydrate" with
           | Except.error e => Except.error e
           | Except.ok cb =>
             match spoonFind nutrList "fat" with
             | Except.error e => Except.error e
             | Except.ok f =>
               Except.ok (jobj
                 [("calories", jsOr c (jnum 0)), ("protein", jsOr p (jnum 0)),
                  ("carbs", jsOr cb (jnum 0)), ("fat", jsOr f (jnum 0))]))
    | _ => Except.error "TypeError"

/-- server.js `getNutritionSpoonacular`: the catch block surfaces
every failure as `'Spoonacular failed: ' + message`. -/
def getNutritionSpoonacular (guessData searchData infoData : JVal) :
    Except String JVal :=
  match spoonacularInner guessData searchData infoData with
  | Except.error e => Except.error ("Spoonacular failed: " ++ e)
  | ok => ok

-- ---------- server.js lines 298-320: Tab 6 by name, OpenAI ----------

/-- server.js `getNutritionFromOpenAIByName` applied to the model
response text (lines 311-315): same first-`'\x7b'` /
last-`'\x7d'` span extraction, then `JSON.parse`, with every failure
caught and normalized to `'OpenAI nutrition lookup failed'`. -/
def getNutritionFromOpenAIByName (out : List Char) : Except String JVal :=
  match extractJsonText out with
  | none => Except.error "OpenAI nutrition lookup failed"
  | some jsonText =>
    match jsonParse jsonText with
    | some v => Except.ok v
    | none => Except.error "OpenAI nutrition lookup failed"

-- ---------- server.js lines 365-394: POST /api/analyze-image ----------

/-- The network calls the analyze pipeline can perform: the
recognition call, one of the five name-based provider adapters, or
the image-based OpenAI nutrition call (tab 6). -/
inductive NetCall where
  | recognition : NetCall
  | provider : Nat → NetCall
  | imageNutrition : NetCall
deriving DecidableEq

/-- Mocked outcomes of the pipeline's outbound calls:
`recognizeResult` is the outcome of `analyzeWithOpenAI` (already
normalized by its own catch block), `imageNutritionOut` the raw model
text of the tab-6 image call, `providerResult t` the outcome of the
tab-`t` name adapter. -/
structure PipelineEnv where
  recognizeResult : Except String String
  imageNutritionOut : Except String String
  providerResult : Nat → Except String JVal

/-- An HTTP response: status code and JSON body. -/
structure Resp where
  status : Nat
  body : JVal

/-- server.js line 392: `res.status(500).json(\x7b error: err.message ||
'Failed to analyze image' \x7d)`. -/
def errBody (e : String) : JVal :=
  jobj [("error", jstr (if e == "" then "Failed to analyze image" else e))]

/-- The `switch (Number(tab))` cases 1-5 of server.js lines 379-385. -/
def tabSwitch (q : Rat) : Option Nat :=
  if q = 1 then some 1
  else if q = 2 then some 2
  else if q = 3 then some 3
  else if q = 4 then some 4
  else if q = 5 then some 5
  else none

/-- server.js lines 365-394, the POST /api/analyze-image handler:
validate presence of `image` and `tab`, recognize the dish, then
either the tab-6 image-nutrition path (with `foodName` backfill) or
the `switch` dispatch to a name adapter; returns the response and the
list of network calls performed. -/
def analyzeImageHandler (env : PipelineEnv) (image tab : JVal) :
    Resp × List NetCall :=
  if !(truthy image && truthy tab) then
    (⟨400, jobj [("error", jstr "Missing image or tab")]⟩, [])
  else
    match env.recognizeResult with
    | Except.error e => (⟨500, errBody e⟩, [NetCall.recognition])
    | Except.ok foodName =>
      if toNumber tab = some 6 then
        match env.imageNutritionOut with
        | Except.error e =>
          (⟨500, errBody ("OpenAI Nutrition image analysis failed: " ++ e)⟩,
           [NetCall.recognition, NetCall.imageNutrition])
        | Except.ok out =>
          match getNutritionFromOpenAIImageCore out.toList with
          | Except.error e =>
            (⟨500, errBody e⟩, [NetCall.recognition, NetCall.imageNutrition])
          | Except.ok parsed =>
            let nutrition :=
              if truthy (getField parsed "foodName") then parsed
              else setField parsed "foodName" (jstr foodName)
            (⟨200, jobj [("foodName", jstr foodName), ("nutrition", nutrition)]⟩,
             [NetCall.recognition, NetCall.imageNutrition])
      else
        match (toNumber tab).bind tabSwitch with
        | some t =>
          (match env.providerResult t with
           | Except.error e =>
             (⟨500, errBody e⟩, [NetCall.recognition, NetCall.provider t])
           | Except.ok nutrition =>
             (⟨200, jobj [("foodName", jstr foodName), ("nutrition", nutrition)]⟩,
              [NetCall.recognition, NetCall.provider t]))
        | none =>
          (⟨400, jobj [("error", jstr "Invalid tab (must be 1-6)")]⟩,
           [NetCall.recognition])

-- ---------- server.js lines 327-337: POST /api/openai/vision ----------

/-- server.js lines 330-331 composed: the data URL
`analyzeWithOpenAI` sends when the vision endpoint receives an upload
with the given bytes and content-type hint
(`req.file.mimetype || 'image/jpeg'`). -/
def visionHandlerSentUrl (fileBuffer : List Nat) (mimetype : String) : List Char :=
  let mime := if mimetype == "" then "image/jpeg" else mimetype
  analyzeWithOpenAISentUrl (bufferToDataUrl fileBuffer mime.toList)

-- ---------- The spec's reading of the brace-span extraction ----------

/-- Modelled from the spec: scan from a `'\x7b'`, tracking nesting
depth, until the matching `'\x7d'`. -/
def balancedSpanAux : List Char → Nat → List Char → Option (List Char)
  | [], _, _ => none
  | c :: t, depth, acc =>
    if c == '{' then balancedSpanAux t (depth + 1) (c :: acc)
    else if c == '}' then
      if depth == 1 then some ((c :: acc).reverse)
      else balancedSpanAux t (depth - 1) (c :: acc)
    else balancedSpanAux t depth (c :: acc)

/-- Modelled from the spec: "extracts the first balanced `\x7b...\x7d`
span from the response text" — the span from the first `'\x7b'` to its
matching `'\x7d'`. -/
def specFirstBalancedSpan (out : List Char) : Option (List Char) :=
  match charIndexOf out '{' with
  | none => none
  | some i => balancedSpanAux (out.drop i) 0 []

-- ---------- Lemmas about stripBase64Prefix ----------

theorem startsWithL_append_self (pat rest : List Char) :
    startsWithL (pat ++ rest) pat = true := by
  induction pat with
  | nil => simp [startsWithL]
  | cons p ps ih => simp [startsWithL, ih]

theorem startsWithL_getElem {s pat : List Char} (h : startsWithL s pat = true) :
    ∀ i, i < pat.length → s[i]? = pat[i]? := by
  induction pat generalizing s with
  | nil => intro i hi; simp at hi
  | cons p ps ih =>
    cases s with
    | nil => simp [startsWithL] at h
    | cons c t =>
      simp only [startsWithL, Bool.and_eq_true, beq_iff_eq] at h
      intro i hi
      cases i with
      | zero => simp [h.1]
      | succ j =>
        simp only [List.getElem?_cons_succ]
        exact ih h.2 j (by simpa using hi)

theorem marker_not_at_front (pre p : List Char) (hne : pre ≠ [])
    (hc : ',' ∉ pre) :
    startsWithL (pre ++ (base64Marker ++ p)) base64Marker = false := by
  by_contra hcon
  rw [Bool.not_eq_false] at hcon
  have h6 := startsWithL_getElem hcon 6 (by decide)
  have hm : base64Marker[6]? = some ',' := by decide
  rw [hm] at h6
  rcases Nat.lt_or_ge 6 pre.length with hlt | hge
  · rw [List.getElem?_append_left hlt] at h6
    exact hc (List.getElem?_mem h6)
  · rw [List.getElem?_append_right hge] at h6
    have hlen : 1 ≤ pre.length := by
      cases pre with
      | nil => exact absurd rfl hne
      | cons a b => simp
    have hk2 : 6 - pre.length < base64Marker.length := by
      simp [base64Marker]; omega
    rw [List.getElem?_append_left hk2] at h6
    have hk : 6 - pre.length ≤ 5 := by omega
    set k := 6 - pre.length with hkdef
    interval_cases k <;> simp [base64Marker] at h6

theorem indexOfAux_marker_append (pre p : List Char) (hc : ',' ∉ pre) :
    ∀ i, indexOfAux base64Marker (pre ++ (base64Marker ++ p)) i
      = some (i + pre.length) := by
  induction pre with
  | nil =>
    intro i
    have h1 : startsWithL (base64Marker ++ p) base64Marker = true :=
      startsWithL_append_self base64Marker p
    have step : indexOfAux base64Marker ([] ++ (base64Marker ++ p)) i
        = if startsWithL (base64Marker ++ p) base64Marker
          then some i
          else indexOfAux base64Marker (('a' :: 's' :: 'e' :: '6' :: '4' :: ',' :: []) ++ p) (i + 1) := rfl
    rw [step, h1]
    simp
  | cons c pre1 ih =>
    intro i
    have hfalse := marker_not_at_front (c :: pre1) p (by simp) hc
    have hc1 : ',' ∉ pre1 := fun hm => hc (List.mem_cons_of_mem c hm)
    have step : indexOfAux base64Marker ((c :: pre1) ++ (base64Marker ++ p)) i
        = if startsWithL ((c :: pre1) ++ (base64Marker ++ p)) base64Marker
          then some i
          else indexOfAux base64Marker (pre1 ++ (base64Marker ++ p)) (i + 1) := rfl
    rw [step, hfalse]
    simp only [Bool.false_eq_true, if_false]
    rw [ih hc1 (i + 1)]
    congr 1
    simp
    omega

theorem indexOfAux_marker_none (s : List Char) (hc : ',' ∉ s) :
    ∀ i, indexOfAux base64Marker s i = none := by
  induction s with
  | nil => intro i; rfl
  | cons c t ih =>
    intro i
    have hfalse : startsWithL (c :: t) base64Marker = false := by
      by_contra hcon
      rw [Bool.not_eq_false] at hcon
      have h6 := startsWithL_getElem hcon 6 (by decide)
      have hm : base64Marker[6]? = some ',' := by decide
      rw [hm] at h6
      exact hc (List.getElem?_mem h6)
    have hct : ',' ∉ t := fun hm => hc (List.mem_cons_of_mem c hm)
    have step : indexOfAux base64Marker (c :: t) i
        = if startsWithL (c :: t) base64Marker
          then some i
          else indexOfAux base64Marker t (i + 1) := rfl
    rw [step, hfalse]
    simp [ih hct (i + 1)]

theorem stripBase64Prefix_eq (s : List Char) :
    stripBase64Prefix s
      = (match indexOfAux base64Marker s 0 with
         | some idx => s.drop (idx + 7)
         | none => s) := by
  cases s with
  | nil => rfl
  | cons c t => rfl

theorem stripBase64Prefix_no_comma (s : List Char) (hc : ',' ∉ s) :
    stripBase64Prefix s = s := by
  rw [stripBase64Prefix_eq, indexOfAux_marker_none s hc 0]

theorem semicolonMarker : ";base64,".toList = ';' :: base64Marker := rfl

theorem mkDataUrl_decomp (mime p : List Char) :
    mkDataUrl mime p
      = ("data:".toList ++ mime ++ [';']) ++ (base64Marker ++ p) := by
  simp [mkDataUrl, semicolonMarker, base64Marker, List.append_assoc]

theorem stripBase64Prefix_mkDataUrl (mime p : List Char) (hm : ',' ∉ mime) :
    stripBase64Prefix (mkDataUrl mime p) = p := by
  have hpre : ',' ∉ ("data:".toList ++ mime ++ [';']) := by
    intro h
    rcases List.mem_append.mp h with h12 | h3
    · rcases List.mem_append.mp h12 with h1 | h2
      · revert h1; decide
      · exact hm h2
    · revert h3; decide
  rw [mkDataUrl_decomp, stripBase64Prefix_eq,
    indexOfAux_marker_append ("data:".toList ++ mime ++ [';']) p hpre 0]
  show (("data:".toList ++ mime ++ [';']) ++ (base64Marker ++ p)).drop
      (0 + ("data:".toList ++ mime ++ [';']).length + 7) = p
  have hassoc : ("data:".toList ++ mime ++ [';']) ++ (base64Marker ++ p)
      = (("data:".toList ++ mime ++ [';']) ++ base64Marker) ++ p := by
    simp [List.append_assoc]
  rw [hassoc]
  have hlen : 0 + ("data:".toList ++ mime ++ [';']).length + 7
      = (("data:".toList ++ mime ++ [';']) ++ base64Marker).length := by
    simp [base64Marker]
  rw [hlen, List.drop_left]

theorem base64_no_comma (b : List Char) (hb : b.all isBase64Char = true) :
    ',' ∉ b := by
  intro hmem
  have h := List.all_eq_true.mp hb ',' hmem
  simp [isBase64Char] at h

-- ---------- Claim C6 ----------

/-- C6: the Image Codec Utility's normalize operation
(`stripBase64Prefix`) is a no-op on an already-bare base64 string, and
normalizing the data-URL form `data:<mime>;base64,<payload>` gives the
same output as normalizing the bare payload (for any MIME type, which
by RFC 2045 token syntax cannot contain a comma). -/
theorem C6_normalize_idempotent_roundtrip :
    (∀ b : List Char, b.all isBase64Char = true → stripBase64Prefix b = b) ∧
    (∀ mime p : List Char, ',' ∉ mime → p.all isBase64Char = true →
      stripBase64Prefix (mkDataUrl mime p) = stripBase64Prefix p) := by
  constructor
  · intro b hb
    exact stripBase64Prefix_no_comma b (base64_no_comma b hb)
  · intro mime p hm hp
    rw [stripBase64Prefix_mkDataUrl mime p hm,
      stripBase64Prefix_no_comma p (base64_no_comma p hp)]

/-- Witness for C6 at a concrete bare payload and data URL. -/
theorem C6_normalize_idempotent_roundtrip_witness :
    stripBase64Prefix ("QUJD".toList) = "QUJD".toList ∧
    stripBase64Prefix (mkDataUrl ("image/png".toList) ("QUJD".toList))
      = stripBase64Prefix ("QUJD".toList) :=
  ⟨C6_normalize_idempotent_roundtrip.1 ("QUJD".toList) (by decide),
   C6_normalize_idempotent_roundtrip.2 ("image/png".toList) ("QUJD".toList)
     (by decide) (by decide)⟩

-- ---------- Claim C10 ----------

/-- C10: both model-facing image operations always forward the image
as a `data:image/jpeg;base64,` URL: the sent URL starts with that
prefix for every input; an incoming data-URL prefix with any
(comma-free) MIME type is stripped and replaced by `image/jpeg`; and
the upload endpoint's content-type hint is likewise discarded, the
upstream URL carrying `image/jpeg` around the upload's base64 bytes. -/
theorem C10_jpeg_data_url :
    (∀ img : List Char,
      startsWithL (analyzeWithOpenAISentUrl img)
        ("data:image/jpeg;base64,".toList) = true ∧
      startsWithL (getNutritionFromOpenAIImageSentUrl img)
        ("data:image/jpeg;base64,".toList) = true) ∧
    (∀ mime p : List Char, ',' ∉ mime →
      analyzeWithOpenAISentUrl (mkDataUrl mime p)
        = "data:image/jpeg;base64,".toList ++ p ∧
      getNutritionFromOpenAIImageSentUrl (mkDataUrl mime p)
        = "data:image/jpeg;base64,".toList ++ p) ∧
    (∀ (buf : List Nat) (mt : String), ',' ∉ mt.toList →
      visionHandlerSentUrl buf mt
        = "data:image/jpeg;base64,".toList ++ base64Encode buf) := by
  refine ⟨fun img => ⟨?_, ?_⟩, fun mime p hm => ?_, fun buf mt hmt => ?_⟩
  · exact startsWithL_append_self _ _
  · exact startsWithL_append_self _ _
  · constructor
    · show "data:image/jpeg;base64,".toList ++ stripBase64Prefix (mkDataUrl mime p)
        = "data:image/jpeg;base64,".toList ++ p
      rw [stripBase64Prefix_mkDataUrl mime p hm]
    · show "data:image/jpeg;base64,".toList ++ stripBase64Prefix (mkDataUrl mime p)
        = "data:image/jpeg;base64,".toList ++ p
      rw [stripBase64Prefix_mkDataUrl mime p hm]
  · show analyzeWithOpenAISentUrl
      (bufferToDataUrl buf (if mt == "" then "image/jpeg" else mt).toList)
      = "data:image/jpeg;base64,".toList ++ base64Encode buf
    have hmime : ',' ∉ (if mt == "" then "image/jpeg" else mt).toList := by
      cases hq : (mt == "") with
      | true => simp only [if_true]; decide
      | false => simpa using hmt
    show "data:image/jpeg;base64,".toList
        ++ stripBase64Prefix (mkDataUrl (if mt == "" then "image/jpeg" else mt).toList
          (base64Encode buf))
      = "data:image/jpeg;base64,".toList ++ base64Encode buf
    rw [stripBase64Prefix_mkDataUrl _ _ hmime]

/-- Witness for C10 at a concrete image payload, MIME type and upload. -/
theorem C10_jpeg_data_url_witness :
    startsWithL (analyzeWithOpenAISentUrl ("QUJD".toList))
      ("data:image/jpeg;base64,".toList) = true ∧
    analyzeWithOpenAISentUrl (mkDataUrl ("image/png".toList) ("QUJD".toList))
      = "data:image/jpeg;base64,".toList ++ "QUJD".toList ∧
    visionHandlerSentUrl [65, 66, 67] "image/png"
      = "data:image/jpeg;base64,".toList ++ base64Encode [65, 66, 67] :=
  ⟨(C10_jpeg_data_url.1 ("QUJD".toList)).1,
   (C10_jpeg_data_url.2.1 ("image/png".toList) ("QUJD".toList) (by decide)).1,
   C10_jpeg_data_url.2.2 [65, 66, 67] "image/png" (by decide)⟩

-- ---------- Claims C1 and C5: the analyze pipeline ----------

/-- A mocked environment whose recognition call succeeds. -/
def mockEnvOkRecog : PipelineEnv :=
  { recognizeResult := Except.ok "pizza"
    imageNutritionOut := Except.ok ""
    providerResult := fun _ => Except.ok (jobj []) }

/-- A mocked environment whose recognition call fails. -/
def mockEnvFailRecog : PipelineEnv :=
  { recognizeResult := Except.error "OpenAI Vision failed: boom"
    imageNutritionOut := Except.ok ""
    providerResult := fun _ => Except.ok (jobj []) }

/-- C1 counterexample: with `image` and `tab` both present and
`tab = 7` (outside 1..6), the pipeline does return a 400 client error,
but it performs the recognition network call first — the call list is
`[recognition]`, not empty, refuting "performs zero network calls: no
recognition call ... is made". -/
theorem C1_counterexample :
    (analyzeImageHandler mockEnvOkRecog (jstr "img") (jnum 7)).1.status = 400 ∧
    (analyzeImageHandler mockEnvOkRecog (jstr "img") (jnum 7)).2
      = [NetCall.recognition] ∧
    (analyzeImageHandler mockEnvOkRecog (jstr "img") (jnum 7)).2 ≠ [] := by
  refine ⟨rfl, rfl, by decide⟩

/-- C1 (amended): for every request with `image` and `tab` present and
`Number(tab)` outside {1..6}, no provider adapter call and no tab-6
image-nutrition call is made, and — when the recognition call succeeds
— the pipeline returns the 400 "Invalid tab" client error; the
recognition call, however, has already been performed. -/
theorem C1_invalid_tab_amended (env : PipelineEnv) (image tab : JVal)
    (himg : truthy image = true) (htab : truthy tab = true)
    (hout : toNumber tab ∉ [some (1 : Rat), some 2, some 3, some 4, some 5, some 6]) :
    (∀ t, NetCall.provider t ∉ (analyzeImageHandler env image tab).2) ∧
    NetCall.imageNutrition ∉ (analyzeImageHandler env image tab).2 ∧
    ∀ name, env.recognizeResult = Except.ok name →
      analyzeImageHandler env image tab
        = (⟨400, jobj [("error", jstr "Invalid tab (must be 1-6)")]⟩,
           [NetCall.recognition]) := by
  have h6 : ¬(toNumber tab = some 6) := fun h => hout (by simp [h])
  have hsw : (toNumber tab).bind tabSwitch = none := by
    cases hq : toNumber tab with
    | none => rfl
    | some q =>
      have hne : ¬(q = 1) ∧ ¬(q = 2) ∧ ¬(q = 3) ∧ ¬(q = 4) ∧ ¬(q = 5) := by
        refine ⟨?_, ?_, ?_, ?_, ?_⟩ <;> intro h <;> subst h <;>
          exact hout (by simp [hq])
      simp [tabSwitch, hne.1, hne.2.1, hne.2.2.1, hne.2.2.2.1, hne.2.2.2.2]
  obtain ⟨r, io, pr⟩ := env
  cases r with
  | error e => simp [analyzeImageHandler, himg, htab]
  | ok name => simp [analyzeImageHandler, himg, htab, h6, hsw]

/-- Witness for the amended C1 at `tab = 7`. -/
theorem C1_invalid_tab_amended_witness :
    NetCall.provider 3 ∉ (analyzeImageHandler mockEnvOkRecog (jstr "img") (jnum 7)).2 ∧
    analyzeImageHandler mockEnvOkRecog (jstr "img") (jnum 7)
      = (⟨400, jobj [("error", jstr "Invalid tab (must be 1-6)")]⟩,
         [NetCall.recognition]) := by
  have h := C1_invalid_tab_amended mockEnvOkRecog (jstr "img") (jnum 7)
    (by decide) (by decide) (by decide)
  exact ⟨h.1 3, h.2.2 "pizza" rfl⟩

/-- C5: whenever the recognition call fails (with both request fields
present, so that the pipeline actually runs), the request ends with a
500 carrying the recognition error, and the only network call
performed is the recognition call itself — no provider adapter and no
image-nutrition call is ever invoked. -/
theorem C5_recognition_failure_terminal (env : PipelineEnv) (image tab : JVal)
    (himg : truthy image = true) (htab : truthy tab = true)
    (e : String) (hrec : env.recognizeResult = Except.error e) :
    analyzeImageHandler env image tab = (⟨500, errBody e⟩, [NetCall.recognition]) ∧
    (∀ t, NetCall.provider t ∉ (analyzeImageHandler env image tab).2) ∧
    NetCall.imageNutrition ∉ (analyzeImageHandler env image tab).2 := by
  obtain ⟨r, io, pr⟩ := env
  obtain rfl : r = Except.error e := hrec
  simp [analyzeImageHandler, himg, htab]

/-- Witness for C5 at a concrete failing recognition. -/
theorem C5_recognition_failure_terminal_witness :
    analyzeImageHandler mockEnvFailRecog (jstr "img") (jnum 2)
      = (⟨500, errBody "OpenAI Vision failed: boom"⟩, [NetCall.recognition]) := by
  have h := C5_recognition_failure_terminal mockEnvFailRecog (jstr "img") (jnum 2)
    (by decide) (by decide) "OpenAI Vision failed: boom" rfl
  exact h.1

-- ---------- Claim C4: FatSecret stage gating ----------

/-- FatSecret mock failing at the token stage (no `access_token`). -/
def fsEnvTokenFail : FSEnv :=
  { tokenResp := Except.ok (jobj [])
    searchResp := Except.ok (jobj [])
    detailResp := Except.ok (jobj []) }

/-- FatSecret mock failing at the search stage (no food found). -/
def fsEnvSearchFail : FSEnv :=
  { tokenResp := Except.ok (jobj [("access_token", jstr "tok")])
    searchResp := Except.ok (jobj [])
    detailResp := Except.ok (jobj []) }

/-- FatSecret mock failing at the detail stage (no serving info). -/
def fsEnvServingFail : FSEnv :=
  { tokenResp := Except.ok (jobj [("access_token", jstr "tok")])
    searchResp := Except.ok (jobj [("foods",
      jobj [("food", jarr [jobj [("food_id", jnum 1)]])])])
    detailResp := Except.ok (jobj []) }

/-- C4 counterexample: a token-stage failure and a search-stage
failure surface the very same error value `'FatSecret failed'` — the
error surfaced by the adapter does not identify the failed stage,
refuting "the surfaced ProviderError identifies the token stage"
(though the chain does abort before the later calls). -/
theorem C4_counterexample :
    getNutritionFatSecret fsEnvTokenFail
      = (Except.error "FatSecret failed", [FSCall.token]) ∧
    getNutritionFatSecret fsEnvSearchFail
      = (Except.error "FatSecret failed", [FSCall.token, FSCall.search]) ∧
    (getNutritionFatSecret fsEnvTokenFail).1
      = (getNutritionFatSecret fsEnvSearchFail).1 :=
  ⟨rfl, rfl, rfl⟩

/-- C4 (amended): any stage failing aborts the three-call chain
before any later-stage call, with an internal (logged) error naming
the stage — `'FatSecret token failed'`, `'FatSecret: no food found'`,
`'FatSecret: no serving info'` — but the error surfaced to the caller
is the generic `'FatSecret failed'` for every stage. -/
theorem C4_stage_gating (env : FSEnv) :
    (∀ td, env.tokenResp = Except.ok td →
      truthy (jsAnd td (getField td "access_token")) = false →
      fatSecretInner env
        = (Except.error "FatSecret token failed", [FSCall.token]) ∧
      getNutritionFatSecret env
        = (Except.error "FatSecret failed", [FSCall.token])) ∧
    (∀ td sd, env.tokenResp = Except.ok td →
      truthy (jsAnd td (getField td "access_token")) = true →
      env.searchResp = Except.ok sd →
      truthy (fsFirstFood sd) = false →
      fatSecretInner env
        = (Except.error "FatSecret: no food found", [FSCall.token, FSCall.search]) ∧
      getNutritionFatSecret env
        = (Except.error "FatSecret failed", [FSCall.token, FSCall.search])) ∧
    (∀ td sd dd, env.tokenResp = Except.ok td →
      truthy (jsAnd td (getField td "access_token")) = true →
      env.searchResp = Except.ok sd →
      truthy (fsFirstFood sd) = true →
      env.detailResp = Except.ok dd →
      truthy (fsServing dd) = false →
      fatSecretInner env
        = (Except.error "FatSecret: no serving info",
           [FSCall.token, FSCall.search, FSCall.detail]) ∧
      getNutritionFatSecret env
        = (Except.error "FatSecret failed",
           [FSCall.token, FSCall.search, FSCall.detail])) := by
  obtain ⟨tr, sr, dr⟩ := env
  refine ⟨?_, ?_, ?_⟩
  · intro td htok hfalse
    obtain rfl : tr = Except.ok td := htok
    simp [fatSecretInner, getNutritionFatSecret, hfalse]
  · intro td sd htok htrue hsr hfood
    obtain rfl : tr = Except.ok td := htok
    obtain rfl : sr = Except.ok sd := hsr
    simp [fatSecretInner, getNutritionFatSecret, htrue, hfood]
  · intro td sd dd htok htrue hsr hfood hdr hserv
    obtain rfl : tr = Except.ok td := htok
    obtain rfl : sr = Except.ok sd := hsr
    obtain rfl : dr = Except.ok dd := hdr
    simp [fatSecretInner, getNutritionFatSecret, htrue, hfood, hserv]

/-- Witness for the amended C4 at the three concrete mocks. -/
theorem C4_stage_gating_witness :
    getNutritionFatSecret fsEnvTokenFail
      = (Except.error "FatSecret failed", [FSCall.token]) ∧
    fatSecretInner fsEnvSearchFail
      = (Except.error "FatSecret: no food found", [FSCall.token, FSCall.search]) ∧
    fatSecretInner fsEnvServingFail
      = (Except.error "FatSecret: no serving info",
         [FSCall.token, FSCall.search, FSCall.detail]) := by
  refine ⟨((C4_stage_gating fsEnvTokenFail).1 (jobj []) rfl (by decide)).2,
    ((C4_stage_gating fsEnvSearchFail).2.1 (jobj [("access_token", jstr "tok")])
      (jobj []) rfl (by decide) rfl (by decide)).1,
    ((C4_stage_gating fsEnvServingFail).2.2 (jobj [("access_token", jstr "tok")])
      (jobj [("foods", jobj [("food", jarr [jobj [("food_id", jnum 1)]])])])
      (jobj []) rfl (by decide) rfl ?_ rfl (by decide)).1⟩
  decide

-- ---------- Claim C2: no-results behaviour ----------

/-- `a || b` reduces to `b` when `a` is falsy. -/
theorem jsOr_falsy {a b : JVal} (ha : truthy a = false) : jsOr a b = b := by
  simp [jsOr, ha]

/-- `a || b` reduces to `a` when `a` is truthy. -/
theorem jsOr_truthy {a b : JVal} (ha : truthy a = true) : jsOr a b = a := by
  simp [jsOr, ha]

/-- Unfolding equation for the Edamam food-database adapter. -/
theorem getNutritionEdamam2_eq (resData : JVal) :
    getNutritionEdamam2 resData
      = (if truthy (jsOr (edamam2ParsedFood (jsOr resData (jobj [])))
            (edamam2HintFood (jsOr resData (jobj [])))) then
          Except.ok (edamam2Record (jsOr (edamam2ParsedFood (jsOr resData (jobj [])))
            (edamam2HintFood (jsOr resData (jobj [])))))
        else Except.error "Edamam FoodDB failed") := rfl

/-- C2 counterexample: the tab-1 nutrition-analysis adapter, on a
response body with no `calories` and no `totalNutrients` (the empty
object), succeeds with an all-zero record instead of failing with a
ProviderError — refuting the claim for this adapter. -/
theorem C2_counterexample :
    getNutritionEdamam1 (jobj [])
      = Except.ok (jobj [("calories", jnum 0), ("protein", jnum 0),
                         ("carbs", jnum 0), ("fat", jnum 0)]) ∧
    (getNutritionEdamam1 (jobj [])).isOk = true :=
  ⟨rfl, rfl⟩

/-- Case equation: no brace boundary in the by-name model reply. -/
theorem byName_ext_none {out : List Char} (h : extractJsonText out = none) :
    getNutritionFromOpenAIByName out
      = Except.error "OpenAI nutrition lookup failed" := by
  unfold getNutritionFromOpenAIByName
  rw [h]

/-- Case equation: the extracted by-name span fails to parse. -/
theorem byName_parse_none {out jt : List Char}
    (h : extractJsonText out = some jt) (hp : jsonParse jt = none) :
    getNutritionFromOpenAIByName out
      = Except.error "OpenAI nutrition lookup failed" := by
  unfold getNutritionFromOpenAIByName
  rw [h]
  show (match jsonParse jt with
    | some v => Except.ok v
    | none => Except.error "OpenAI nutrition lookup failed") = _
  rw [hp]

/-- C2 (amended): a "no results" upstream response yields a
ProviderError for five of the six adapters — food-database (tab 2,
neither parsed nor hint food), FatSecret (tab 3, no search hit),
OpenFoodFacts (tab 4, no product), Spoonacular (tab 5, unusable guess
and empty ingredient search), and the language-model name adapter
(tab 6, whose "no results" manifests as a reply carrying no parseable
JSON object, surfaced as its ProviderError) — but the tab-1
nutrition-analysis adapter has no such check and instead returns an
all-zero record. -/
theorem C2_no_results_amended :
    (∀ data, truthy (edamam2ParsedFood (jsOr data (jobj []))) = false →
      truthy (edamam2HintFood (jsOr data (jobj []))) = false →
      getNutritionEdamam2 data = Except.error "Edamam FoodDB failed") ∧
    (∀ (env : FSEnv) td sd, env.tokenResp = Except.ok td →
      truthy (jsAnd td (getField td "access_token")) = true →
      env.searchResp = Except.ok sd →
      truthy (fsFirstFood sd) = false →
      (getNutritionFatSecret env).1 = Except.error "FatSecret failed") ∧
    (∀ data, truthy (offFirstProduct data) = false →
      getNutritionOpenFoodFactsSurfaced data
        = Except.error "OpenFoodFacts failed") ∧
    (∀ g s i, spoonGuessUsable g = false →
      jsOr (jsAnd s (getField s "results")) (jarr []) = jarr [] →
      getNutritionSpoonacular g s i
        = Except.error "Spoonacular failed: Spoonacular: ingredient not found") ∧
    (∀ out, extractJsonText out = none →
      getNutritionFromOpenAIByName out
        = Except.error "OpenAI nutrition lookup failed") ∧
    (∀ out jt, extractJsonText out = some jt → jsonParse jt = none →
      getNutritionFromOpenAIByName out
        = Except.error "OpenAI nutrition lookup failed") ∧
    getNutritionEdamam1 (jobj [])
      = Except.ok (jobj [("calories", jnum 0), ("protein", jnum 0),
                         ("carbs", jnum 0), ("fat", jnum 0)]) := by
  refine ⟨?_, ?_, ?_, ?_, ?_, ?_, rfl⟩
  · intro data h1 h2
    rw [getNutritionEdamam2_eq, jsOr_falsy h1, h2]
    simp
  · intro env td sd htok htrue hsr hfood
    obtain ⟨tr, sr, dr⟩ := env
    obtain rfl : tr = Except.ok td := htok
    obtain rfl : sr = Except.ok sd := hsr
    simp [fatSecretInner, getNutritionFatSecret, htrue, hfood]
  · intro data h
    simp [getNutritionOpenFoodFactsSurfaced, getNutritionOpenFoodFacts, h]
  · intro g s i hg hres
    simp [getNutritionSpoonacular, spoonacularInner, spoonResults,
      spoonHasLength, hg, hres]
  · intro out hext
    exact byName_ext_none hext
  · intro out jt hext hp
    exact byName_parse_none hext hp

/-- Witness for the amended C2 at concrete empty-result bodies. -/
theorem C2_no_results_amended_witness :
    getNutritionEdamam2 (jobj []) = Except.error "Edamam FoodDB failed" ∧
    (getNutritionFatSecret fsEnvSearchFail).1 = Except.error "FatSecret failed" ∧
    getNutritionOpenFoodFactsSurfaced (jobj [("products", jarr [])])
      = Except.error "OpenFoodFacts failed" ∧
    getNutritionSpoonacular (jobj []) (jobj [("results", jarr [])]) (jobj [])
      = Except.error "Spoonacular failed: Spoonacular: ingredient not found" ∧
    getNutritionFromOpenAIByName ("I cannot tell from a name alone".toList)
      = Except.error "OpenAI nutrition lookup failed" := by
  have h := C2_no_results_amended
  exact ⟨h.1 (jobj []) (by decide) (by decide),
    h.2.1 fsEnvSearchFail (jobj [("access_token", jstr "tok")]) (jobj [])
      rfl (by decide) rfl (by decide),
    h.2.2.1 (jobj [("products", jarr [])]) (by decide),
    h.2.2.2.1 (jobj []) (jobj [("results", jarr [])]) (jobj []) (by decide) rfl,
    h.2.2.2.2.1 ("I cannot tell from a name alone".toList) rfl⟩

-- ---------- Claims C3, C7, C8, C9 ----------

/-- The record carries all four macro keys (none reads as `undefined`). -/
def hasAllFourKeys (v : JVal) : Bool :=
  !isUndef (getField v "calories") && !isUndef (getField v "protein") &&
  !isUndef (getField v "carbs") && !isUndef (getField v "fat")

/-- A truthy value is never `undefined`. -/
theorem isUndef_of_truthy {a : JVal} (h : truthy a = true) : isUndef a = false := by
  cases a with
  | jundef => simp [truthy] at h
  | jnull => rfl
  | jbool b => rfl
  | jnum q => rfl
  | jnan => rfl
  | jstr s => rfl
  | jarr xs => rfl
  | jobj fs => rfl

/-- `a || b` is not `undefined` when `b` is not. -/
theorem isUndef_jsOr_right {a b : JVal} (hb : isUndef b = false) :
    isUndef (jsOr a b) = false := by
  cases h : truthy a with
  | true => simp [jsOr, h, isUndef_of_truthy h]
  | false => simp [jsOr, h, hb]

/-- `a || 0` is never `undefined`. -/
theorem isUndef_jsOr_zero (a : JVal) : isUndef (jsOr a (jnum 0)) = false :=
  isUndef_jsOr_right rfl

/-- `parseFloat` never yields `undefined`. -/
theorem isUndef_parseFloatJS (v : JVal) : isUndef (parseFloatJS v) = false := by
  cases v with
  | jstr s =>
    show isUndef (match parseFloatStr s.toList with
      | some q => jnum q
      | none => jnan) = false
    cases parseFloatStr s.toList with
    | none => rfl
    | some q => rfl
  | jundef => rfl
  | jnull => rfl
  | jbool b => rfl
  | jnum q => rfl
  | jnan => rfl
  | jarr xs => rfl
  | jobj fs => rfl

/-- The `\x7bvalue\x7d`/`\x7bamount\x7d` extraction never yields `undefined`. -/
theorem isUndef_wrapperVal (v : JVal) :
    isUndef (if !isUndef (getField v "value") then parseFloatJS (getField v "value")
      else if !isUndef (getField v "amount") then parseFloatJS (getField v "amount")
      else jnum 0) = false := by
  split
  · exact isUndef_parseFloatJS _
  · split
    · exact isUndef_parseFloatJS _
    · rfl

/-- `parseVal` never yields `undefined`. -/
theorem isUndef_spoonParseVal (v : JVal) : isUndef (spoonParseVal v) = false := by
  unfold spoonParseVal
  cases htv : truthy v with
  | false => simp [htv, isUndef]
  | true =>
    simp only [htv, Bool.not_true, Bool.false_eq_true, if_false]
    cases v with
    | jnum q => rfl
    | jundef => exact isUndef_wrapperVal jundef
    | jnull => exact isUndef_wrapperVal jnull
    | jbool b => exact isUndef_wrapperVal (jbool b)
    | jnan => exact isUndef_wrapperVal jnan
    | jstr s => exact isUndef_wrapperVal (jstr s)
    | jarr xs => exact isUndef_wrapperVal (jarr xs)
    | jobj fs => exact isUndef_wrapperVal (jobj fs)

/-- The tab-1 record always carries the four keys. -/
theorem hasAllFourKeys_edamam1Record (data : JVal) :
    hasAllFourKeys (edamam1Record data) = true := by
  simp [hasAllFourKeys, edamam1Record, getField, lookupField,
    isUndef_jsOr_zero]

/-- The tab-2 record always carries the four keys. -/
theorem hasAllFourKeys_edamam2Record (f : JVal) :
    hasAllFourKeys (edamam2Record f) = true := by
  simp [hasAllFourKeys, edamam2Record, getField, lookupField,
    isUndef_jsOr_zero]

/-- The value is a JS number, as the documented success shapes produce. -/
def isNumeric : JVal → Bool
  | jnum _ => true
  | _ => false

/-- The upstream field is absent or a number (a documented optional
nutrient). -/
def numOrAbsent (v : JVal) : Bool := isUndef v || isNumeric v

/-- A documented `totalNutrients` entry of the tab-1 response:
absent, or an object with a numeric `quantity`. -/
def quantityEntryOk (e : JVal) : Bool :=
  isUndef e || (isObj e && isNumeric (getField e "quantity"))

/-- A documented guess field of the tab-5 estimator: absent, a bare
number, or a wrapper object carrying a numeric `value` or `amount`. -/
def spoonFieldOk (v : JVal) : Bool :=
  isUndef v || isNumeric v ||
  (isObj v && isNumeric (getField v "value")) ||
  (isObj v && isUndef (getField v "value") && isNumeric (getField v "amount"))

/-- A documented nutrient entry of the tab-5 ingredient information:
`name` a string (or absent), `amount` absent or numeric. -/
def spoonEntryOk (x : JVal) : Bool :=
  (match getField x "name" with
   | jstr _ => true
   | n => !truthy n) && numOrAbsent (getField x "amount")

/-- `v || 0` is a number when `v` is absent or a number. -/
theorem isNumeric_jsOr_zero {v : JVal} (h : numOrAbsent v = true) :
    isNumeric (jsOr v (jnum 0)) = true := by
  cases v with
  | jundef => rfl
  | jnum q => simp only [jsOr]; split <;> rfl
  | jnull => simp [numOrAbsent, isUndef, isNumeric] at h
  | jbool b => simp [numOrAbsent, isUndef, isNumeric] at h
  | jnan => simp [numOrAbsent, isUndef, isNumeric] at h
  | jstr s => simp [numOrAbsent, isUndef, isNumeric] at h
  | jarr xs => simp [numOrAbsent, isUndef, isNumeric] at h
  | jobj fs => simp [numOrAbsent, isUndef, isNumeric] at h

/-- `(e && e.quantity) || 0` is a number for a documented entry. -/
theorem isNumeric_quantity_chain {e : JVal} (h : quantityEntryOk e = true) :
    isNumeric (jsOr (jsAnd e (getField e "quantity")) (jnum 0)) = true := by
  cases e with
  | jundef => rfl
  | jobj fs =>
    have hq : isNumeric (getField (jobj fs) "quantity") = true := by
      simpa [quantityEntryOk, isUndef, isObj] using h
    show isNumeric (jsOr (getField (jobj fs) "quantity") (jnum 0)) = true
    exact isNumeric_jsOr_zero (by simp [numOrAbsent, hq])
  | jnull => simp [quantityEntryOk, isUndef, isObj] at h
  | jbool b => simp [quantityEntryOk, isUndef, isObj] at h
  | jnum q => simp [quantityEntryOk, isUndef, isObj] at h
  | jnan => simp [quantityEntryOk, isUndef, isObj] at h
  | jstr s => simp [quantityEntryOk, isUndef, isObj] at h
  | jarr xs => simp [quantityEntryOk, isUndef, isObj] at h

/-- `a || b || 0` is a number when `a` and `b` are absent-or-number. -/
theorem isNumeric_jsOr_or_zero {a b : JVal} (ha : numOrAbsent a = true)
    (hb : numOrAbsent b = true) :
    isNumeric (jsOr a (jsOr b (jnum 0))) = true := by
  cases hta : truthy a with
  | true =>
    rw [jsOr_truthy hta]
    cases a with
    | jnum q => rfl
    | jundef => simp [truthy] at hta
    | jnull => simp [truthy] at hta
    | jnan => simp [truthy] at hta
    | jbool c => simp [numOrAbsent, isUndef, isNumeric] at ha
    | jstr s => simp [numOrAbsent, isUndef, isNumeric] at ha
    | jarr xs => simp [numOrAbsent, isUndef, isNumeric] at ha
    | jobj fs => simp [numOrAbsent, isUndef, isNumeric] at ha
  | false =>
    rw [jsOr_falsy hta]
    exact isNumeric_jsOr_zero hb

/-- `parseVal` yields a number on every documented guess field. -/
theorem isNumeric_spoonParseVal {v : JVal} (h : spoonFieldOk v = true) :
    isNumeric (spoonParseVal v) = true := by
  unfold spoonParseVal
  cases htv : truthy v with
  | false => simp [isNumeric]
  | true =>
    simp only [htv, Bool.not_true, Bool.false_eq_true, if_false]
    cases v with
    | jnum q => rfl
    | jundef => simp [truthy] at htv
    | jnull => simp [truthy] at htv
    | jnan => simp [truthy] at htv
    | jbool b => simp [spoonFieldOk, isUndef, isNumeric, isObj] at h
    | jstr s => simp [spoonFieldOk, isUndef, isNumeric, isObj] at h
    | jarr xs => simp [spoonFieldOk, isUndef, isNumeric, isObj] at h
    | jobj fs =>
      cases hv : getField (jobj fs) "value" with
      | jnum q => simp [hv, isUndef, parseFloatJS, isNumeric]
      | jundef =>
        cases ha : getField (jobj fs) "amount" with
        | jnum q => simp [hv, ha, isUndef, parseFloatJS, isNumeric]
        | jundef => simp [hv, ha, isUndef, isNumeric]
        | jnull => simp [spoonFieldOk, isUndef, isObj, isNumeric, hv, ha] at h
        | jbool b => simp [spoonFieldOk, isUndef, isObj, isNumeric, hv, ha] at h
        | jnan => simp [spoonFieldOk, isUndef, isObj, isNumeric, hv, ha] at h
        | jstr s => simp [spoonFieldOk, isUndef, isObj, isNumeric, hv, ha] at h
        | jarr xs => simp [spoonFieldOk, isUndef, isObj, isNumeric, hv, ha] at h
        | jobj gs => simp [spoonFieldOk, isUndef, isObj, isNumeric, hv, ha] at h
      | jnull => simp [spoonFieldOk, isUndef, isObj, isNumeric, hv] at h
      | jbool b => simp [spoonFieldOk, isUndef, isObj, isNumeric, hv] at h
      | jnan => simp [spoonFieldOk, isUndef, isObj, isNumeric, hv] at h
      | jstr s => simp [spoonFieldOk, isUndef, isObj, isNumeric, hv] at h
      | jarr xs => simp [spoonFieldOk, isUndef, isObj, isNumeric, hv] at h
      | jobj gs => simp [spoonFieldOk, isUndef, isObj, isNumeric, hv] at h

/-- A nutrient the `find` callback returns is from the list. -/
theorem spoonFindAux_mem {name : String} {xs : List JVal} {x : JVal}
    (h : spoonFindAux name xs = Except.ok (some x)) : x ∈ xs := by
  induction xs with
  | nil => simp [spoonFindAux] at h
  | cons y t ih =>
    unfold spoonFindAux at h
    split at h
    · split at h
      · split at h
        · injection h with h2
          injection h2 with h3
          subst h3
          exact List.mem_cons_self y t
        · exact List.mem_cons_of_mem y (ih h)
      · cases h
    · exact List.mem_cons_of_mem y (ih h)

/-- On a documented nutrient list, `find(name)` succeeds with an
absent-or-numeric amount. -/
theorem spoonFind_result {xs : List JVal} {name : String} {r : JVal}
    (hfind : spoonFind xs name = Except.ok r)
    (h : ∀ x ∈ xs, spoonEntryOk x = true) :
    numOrAbsent r = true := by
  unfold spoonFind at hfind
  cases haux : spoonFindAux name xs with
  | error e => rw [haux] at hfind; cases hfind
  | ok o =>
    rw [haux] at hfind
    cases o with
    | none =>
      injection hfind with hr
      subst hr
      rfl
    | some x =>
      injection hfind with hr
      subst hr
      have hx := h x (spoonFindAux_mem haux)
      simp [spoonEntryOk] at hx
      exact hx.2

/-- Tab 1, documented success shape: all four record fields are
numbers. -/
theorem edamam1Record_numeric (data : JVal)
    (hcal : numOrAbsent (getField (jsOr data (jobj [])) "calories") = true)
    (hpro : quantityEntryOk (getField (jsOr (getField (jsOr data (jobj []))
      "totalNutrients") (jobj [])) "PROCNT") = true)
    (hcarb : quantityEntryOk (getField (jsOr (getField (jsOr data (jobj []))
      "totalNutrients") (jobj [])) "CHOCDF") = true)
    (hfat : quantityEntryOk (getField (jsOr (getField (jsOr data (jobj []))
      "totalNutrients") (jobj [])) "FAT") = true) :
    isNumeric (getField (edamam1Record data) "calories") = true ∧
    isNumeric (getField (edamam1Record data) "protein") = true ∧
    isNumeric (getField (edamam1Record data) "carbs") = true ∧
    isNumeric (getField (edamam1Record data) "fat") = true := by
  refine ⟨?_, ?_, ?_, ?_⟩ <;> simp [edamam1Record, getField, lookupField]
  · exact isNumeric_jsOr_zero hcal
  · exact isNumeric_quantity_chain hpro
  · exact isNumeric_quantity_chain hcarb
  · exact isNumeric_quantity_chain hfat

/-- Tab 2, documented success shape of the selected food: all four
record fields are numbers. -/
theorem edamam2Record_numeric (f : JVal)
    (h1 : numOrAbsent (getField (jsOr (getField f "nutrients") (jobj []))
      "ENERC_KCAL") = true)
    (h2 : numOrAbsent (getField (jsOr (getField f "nutrients") (jobj []))
      "PROCNT") = true)
    (h3 : numOrAbsent (getField (jsOr (getField f "nutrients") (jobj []))
      "CHOCDF") = true)
    (h4 : numOrAbsent (getField (jsOr (getField f "nutrients") (jobj []))
      "FAT") = true) :
    isNumeric (getField (edamam2Record f) "calories") = true ∧
    isNumeric (getField (edamam2Record f) "protein") = true ∧
    isNumeric (getField (edamam2Record f) "carbs") = true ∧
    isNumeric (getField (edamam2Record f) "fat") = true := by
  refine ⟨?_, ?_, ?_, ?_⟩ <;> simp [edamam2Record, getField, lookupField]
  · exact isNumeric_jsOr_zero h1
  · exact isNumeric_jsOr_zero h2
  · exact isNumeric_jsOr_zero h3
  · exact isNumeric_jsOr_zero h4

/-- Tab 3: every successful lookup yields four numeric fields
(`parseFloat(x) || 0` always produces a number). -/
theorem fatSecret_record_numeric (env : FSEnv) (v : JVal)
    (h : (getNutritionFatSecret env).1 = Except.ok v) :
    isNumeric (getField v "calories") = true ∧
    isNumeric (getField v "protein") = true ∧
    isNumeric (getField v "carbs") = true ∧
    isNumeric (getField v "fat") = true := by
  obtain ⟨tr, sr, dr⟩ := env
  cases tr with
  | error e => simp [getNutritionFatSecret, fatSecretInner] at h
  | ok td =>
    by_cases htok : truthy (jsAnd td (getField td "access_token")) = true
    · cases sr with
      | error e => simp [getNutritionFatSecret, fatSecretInner, htok] at h
      | ok sd =>
        by_cases hfood : truthy (fsFirstFood sd) = true
        · cases dr with
          | error e =>
            simp [getNutritionFatSecret, fatSecretInner, htok, hfood] at h
          | ok dd =>
            by_cases hserv : truthy (fsServing dd) = true
            · simp [getNutritionFatSecret, fatSecretInner, htok, hfood, hserv] at h
              subst h
              simp [getField, lookupField, isNumeric]
            · simp [getNutritionFatSecret, fatSecretInner, htok, hfood, hserv] at h
        · simp [getNutritionFatSecret, fatSecretInner, htok, hfood] at h
    · simp [getNutritionFatSecret, fatSecretInner, htok] at h

/-- Tab 4, documented success shape: all four record fields are
numbers. -/
theorem offRecord_numeric (data v : JVal)
    (h : getNutritionOpenFoodFactsSurfaced data = Except.ok v)
    (he1 : numOrAbsent (getField (jsOr (getField (offFirstProduct data)
      "nutriments") (jobj [])) "energy-kcal") = true)
    (he2 : numOrAbsent (getField (jsOr (getField (offFirstProduct data)
      "nutriments") (jobj [])) "energy_kcal") = true)
    (hp : numOrAbsent (getField (jsOr (getField (offFirstProduct data)
      "nutriments") (jobj [])) "proteins") = true)
    (hc : numOrAbsent (getField (jsOr (getField (offFirstProduct data)
      "nutriments") (jobj [])) "carbohydrates") = true)
    (hf : numOrAbsent (getField (jsOr (getField (offFirstProduct data)
      "nutriments") (jobj [])) "fat") = true) :
    isNumeric (getField v "calories") = true ∧
    isNumeric (getField v "protein") = true ∧
    isNumeric (getField v "carbs") = true ∧
    isNumeric (getField v "fat") = true := by
  by_cases hprod : truthy (offFirstProduct data) = true
  · simp [getNutritionOpenFoodFactsSurfaced, getNutritionOpenFoodFacts, hprod] at h
    subst h
    refine ⟨?_, ?_, ?_, ?_⟩ <;> simp [getField, lookupField]
    · exact isNumeric_jsOr_or_zero he1 he2
    · exact isNumeric_jsOr_zero hp
    · exact isNumeric_jsOr_zero hc
    · exact isNumeric_jsOr_zero hf
  · simp [getNutritionOpenFoodFactsSurfaced, getNutritionOpenFoodFacts, hprod] at h

/-- Tab 5, documented success shapes of both branches: all four
record fields are numbers. -/
theorem spoonacular_record_numeric (g s i v : JVal)
    (h : getNutritionSpoonacular g s i = Except.ok v)
    (hgc : spoonFieldOk (getField g "calories") = true)
    (hgp : spoonFieldOk (getField g "protein") = true)
    (hgcb : spoonFieldOk (getField g "carbs") = true)
    (hgf : spoonFieldOk (getField g "fat") = true)
    (hxs : ∀ xs, jsOr (spoonNutr i) (jarr []) = jarr xs →
      ∀ x ∈ xs, spoonEntryOk x = true) :
    isNumeric (getField v "calories") = true ∧
    isNumeric (getField v "protein") = true ∧
    isNumeric (getField v "carbs") = true ∧
    isNumeric (getField v "fat") = true := by
  unfold getNutritionSpoonacular at h
  cases hi : spoonacularInner g s i with
  | error e => rw [hi] at h; cases h
  | ok w =>
    rw [hi] at h
    injection h with hwv
    subst hwv
    unfold spoonacularInner at hi
    split at hi
    · injection hi with hw
      subst hw
      refine ⟨?_, ?_, ?_, ?_⟩ <;> simp [getField, lookupField]
      · exact isNumeric_spoonParseVal hgc
      · exact isNumeric_spoonParseVal hgp
      · exact isNumeric_spoonParseVal hgcb
      · exact isNumeric_spoonParseVal hgf
    · split at hi
      · cases hi
      · split at hi
        · rename_i nutrList hnl
          have hent := hxs nutrList hnl
          split at hi
          · cases hi
          · rename_i c hfc
            split at hi
            · cases hi
            · rename_i p hfp
              split at hi
              · cases hi
              · rename_i cb hfcb
                split at hi
                · cases hi
                · rename_i f hff
                  injection hi with hw
                  subst hw
                  refine ⟨?_, ?_, ?_, ?_⟩ <;> simp [getField, lookupField]
                  · exact isNumeric_jsOr_zero (spoonFind_result hfc hent)
                  · exact isNumeric_jsOr_zero (spoonFind_result hfp hent)
                  · exact isNumeric_jsOr_zero (spoonFind_result hfcb hent)
                  · exact isNumeric_jsOr_zero (spoonFind_result hff hent)
        · cases hi

/-- C3 counterexample: the language-model name adapter (tab 6), on a
model response whose JSON omits the `fat` key, returns the parsed
object as-is — the returned record's `fat` field is `undefined`,
refuting "all four fields are present ... never an undefined field". -/
theorem C3_counterexample :
    getNutritionFromOpenAIByName
        ("\x7b\"calories\":100,\"protein\":5,\"carbs\":20\x7d".toList)
      = Except.ok (jobj [("calories", jnum 100), ("protein", jnum 5),
                         ("carbs", jnum 20)]) ∧
    getField (jobj [("calories", jnum 100), ("protein", jnum 5),
                    ("carbs", jnum 20)]) "fat" = jundef ∧
    hasAllFourKeys (jobj [("calories", jnum 100), ("protein", jnum 5),
                          ("carbs", jnum 20)]) = false :=
  ⟨rfl, rfl, rfl⟩

/-- C3 (amended): adapters 1-5 return records in which all four
fields are present — never `undefined` — zero-filling absent upstream
nutrients (shown in full for the tab-1 adapter when `totalNutrients`
is absent), and on an upstream response of the vendor's documented
success shape all four fields are moreover numeric; the
language-model name adapter (tab 6) instead returns whatever object
`JSON.parse` produced, unmodified, so a key the model omits stays
absent. -/
theorem C3_success_amended :
    (∀ data v, getNutritionEdamam1 data = Except.ok v → hasAllFourKeys v = true) ∧
    (∀ data v, getNutritionEdamam2 data = Except.ok v → hasAllFourKeys v = true) ∧
    (∀ env v, (getNutritionFatSecret env).1 = Except.ok v → hasAllFourKeys v = true) ∧
    (∀ data v, getNutritionOpenFoodFactsSurfaced data = Except.ok v →
      hasAllFourKeys v = true) ∧
    (∀ g s i v, getNutritionSpoonacular g s i = Except.ok v →
      hasAllFourKeys v = true) ∧
    (∀ data, getField (jsOr data (jobj [])) "totalNutrients" = jundef →
      getNutritionEdamam1 data = Except.ok (jobj
        [("calories", jsOr (getField (jsOr data (jobj [])) "calories") (jnum 0)),
         ("protein", jnum 0), ("carbs", jnum 0), ("fat", jnum 0)])) ∧
    (∀ out jt v, extractJsonText out = some jt → jsonParse jt = some v →
      getNutritionFromOpenAIByName out = Except.ok v) ∧
    (∀ data v, getNutritionEdamam1 data = Except.ok v →
      numOrAbsent (getField (jsOr data (jobj [])) "calories") = true →
      quantityEntryOk (getField (jsOr (getField (jsOr data (jobj []))
        "totalNutrients") (jobj [])) "PROCNT") = true →
      quantityEntryOk (getField (jsOr (getField (jsOr data (jobj []))
        "totalNutrients") (jobj [])) "CHOCDF") = true →
      quantityEntryOk (getField (jsOr (getField (jsOr data (jobj []))
        "totalNutrients") (jobj [])) "FAT") = true →
      isNumeric (getField v "calories") = true ∧
      isNumeric (getField v "protein") = true ∧
      isNumeric (getField v "carbs") = true ∧
      isNumeric (getField v "fat") = true) ∧
    (∀ data v, getNutritionEdamam2 data = Except.ok v →
      numOrAbsent (getField (jsOr (getField (jsOr (edamam2ParsedFood
        (jsOr data (jobj []))) (edamam2HintFood (jsOr data (jobj []))))
        "nutrients") (jobj [])) "ENERC_KCAL") = true →
      numOrAbsent (getField (jsOr (getField (jsOr (edamam2ParsedFood
        (jsOr data (jobj []))) (edamam2HintFood (jsOr data (jobj []))))
        "nutrients") (jobj [])) "PROCNT") = true →
      numOrAbsent (getField (jsOr (getField (jsOr (edamam2ParsedFood
        (jsOr data (jobj []))) (edamam2HintFood (jsOr data (jobj []))))
        "nutrients") (jobj [])) "CHOCDF") = true →
      numOrAbsent (getField (jsOr (getField (jsOr (edamam2ParsedFood
        (jsOr data (jobj []))) (edamam2HintFood (jsOr data (jobj []))))
        "nutrients") (jobj [])) "FAT") = true →
      isNumeric (getField v "calories") = true ∧
      isNumeric (getField v "protein") = true ∧
      isNumeric (getField v "carbs") = true ∧
      isNumeric (getField v "fat") = true) ∧
    (∀ env v, (getNutritionFatSecret env).1 = Except.ok v →
      isNumeric (getField v "calories") = true ∧
      isNumeric (getField v "protein") = true ∧
      isNumeric (getField v "carbs") = true ∧
      isNumeric (getField v "fat") = true) ∧
    (∀ data v, getNutritionOpenFoodFactsSurfaced data = Except.ok v →
      numOrAbsent (getField (jsOr (getField (offFirstProduct data)
        "nutriments") (jobj [])) "energy-kcal") = true →
      numOrAbsent (getField (jsOr (getField (offFirstProduct data)
        "nutriments") (jobj [])) "energy_kcal") = true →
      numOrAbsent (getField (jsOr (getField (offFirstProduct data)
        "nutriments") (jobj [])) "proteins") = true →
      numOrAbsent (getField (jsOr (getField (offFirstProduct data)
        "nutriments") (jobj [])) "carbohydrates") = true →
      numOrAbsent (getField (jsOr (getField (offFirstProduct data)
        "nutriments") (jobj [])) "fat") = true →
      isNumeric (getField v "calories") = true ∧
      isNumeric (getField v "protein") = true ∧
      isNumeric (getField v "carbs") = true ∧
      isNumeric (getField v "fat") = true) ∧
    (∀ g s i v, getNutritionSpoonacular g s i = Except.ok v →
      spoonFieldOk (getField g "calories") = true →
      spoonFieldOk (getField g "protein") = true →
      spoonFieldOk (getField g "carbs") = true →
      spoonFieldOk (getField g "fat") = true →
      (∀ xs, jsOr (spoonNutr i) (jarr []) = jarr xs →
        ∀ x ∈ xs, spoonEntryOk x = true) →
      isNumeric (getField v "calories") = true ∧
      isNumeric (getField v "protein") = true ∧
      isNumeric (getField v "carbs") = true ∧
      isNumeric (getField v "fat") = true) := by
  refine ⟨?_, ?_, ?_, ?_, ?_, ?_, ?_, ?_, ?_, ?_, ?_, ?_⟩
  · intro data v h
    injection h with hv
    subst hv
    exact hasAllFourKeys_edamam1Record data
  · intro data v h
    rw [getNutritionEdamam2_eq] at h
    split at h
    · injection h with hv
      subst hv
      exact hasAllFourKeys_edamam2Record _
    · cases h
  · intro env v h
    obtain ⟨tr, sr, dr⟩ := env
    cases tr with
    | error e => simp [getNutritionFatSecret, fatSecretInner] at h
    | ok td =>
      by_cases htok : truthy (jsAnd td (getField td "access_token")) = true
      · cases sr with
        | error e => simp [getNutritionFatSecret, fatSecretInner, htok] at h
        | ok sd =>
          by_cases hfood : truthy (fsFirstFood sd) = true
          · cases dr with
            | error e =>
              simp [getNutritionFatSecret, fatSecretInner, htok, hfood] at h
            | ok dd =>
              by_cases hserv : truthy (fsServing dd) = true
              · simp [getNutritionFatSecret, fatSecretInner, htok, hfood, hserv] at h
                subst h
                simp [hasAllFourKeys, getField, lookupField, isUndef]
              · simp [getNutritionFatSecret, fatSecretInner, htok, hfood, hserv] at h
          · simp [getNutritionFatSecret, fatSecretInner, htok, hfood] at h
      · simp [getNutritionFatSecret, fatSecretInner, htok] at h
  · intro data v h
    by_cases hp : truthy (offFirstProduct data) = true
    · simp [getNutritionOpenFoodFactsSurfaced, getNutritionOpenFoodFacts, hp] at h
      subst h
      simp [hasAllFourKeys, getField, lookupField,
        isUndef_jsOr_zero, isUndef_jsOr_right]
    · simp [getNutritionOpenFoodFactsSurfaced, getNutritionOpenFoodFacts, hp] at h
  · intro g s i v h
    unfold getNutritionSpoonacular at h
    cases hi : spoonacularInner g s i with
    | error e => rw [hi] at h; cases h
    | ok w =>
      rw [hi] at h
      injection h with hwv
      subst hwv
      unfold spoonacularInner at hi
      split at hi
      · injection hi with hw
        subst hw
        simp [hasAllFourKeys, getField, lookupField, isUndef_spoonParseVal]
      · split at hi
        · cases hi
        · split at hi
          · split at hi
            · cases hi
            · split at hi
              · cases hi
              · split at hi
                · cases hi
                · split at hi
                  · cases hi
                  · injection hi with hw
                    subst hw
                    simp [hasAllFourKeys, getField, lookupField, isUndef_jsOr_zero]
          · cases hi
  · intro data htot
    show Except.ok (edamam1Record data) = _
    simp only [edamam1Record]
    rw [htot]
    rfl
  · intro out jt v hext hparse
    unfold getNutritionFromOpenAIByName
    rw [hext]
    show (match jsonParse jt with
      | some w => Except.ok w
      | none => Except.error "OpenAI nutrition lookup failed") = Except.ok v
    rw [hparse]
  · intro data v h hcal hpro hcarb hfat
    injection h with hv
    subst hv
    exact edamam1Record_numeric data hcal hpro hcarb hfat
  · intro data v h h1 h2 h3 h4
    rw [getNutritionEdamam2_eq] at h
    split at h
    · injection h with hv
      subst hv
      exact edamam2Record_numeric _ h1 h2 h3 h4
    · cases h
  · intro env v h
    exact fatSecret_record_numeric env v h
  · intro data v h h1 h2 h3 h4 h5
    exact offRecord_numeric data v h h1 h2 h3 h4 h5
  · intro g s i v h h1 h2 h3 h4 h5
    exact spoonacular_record_numeric g s i v h h1 h2 h3 h4 h5

/-- A documented tab-1 success body: top-level calories and one
nutrient entry. -/
def edamam1Demo : JVal :=
  jobj [("calories", jnum 95),
        ("totalNutrients", jobj [("PROCNT", jobj [("quantity", jnum 3)])])]

/-- A documented tab-2 success body with one hint food. -/
def edamam2Demo : JVal :=
  jobj [("hints", jarr [jobj [("food", jobj [("nutrients",
    jobj [("ENERC_KCAL", jnum 52)])])]])]

/-- A fully successful FatSecret mock with a documented serving. -/
def fsEnvSuccess : FSEnv :=
  { tokenResp := Except.ok (jobj [("access_token", jstr "tok")])
    searchResp := Except.ok (jobj [("foods", jobj [("food",
      jarr [jobj [("food_id", jnum 1)]])])])
    detailResp := Except.ok (jobj [("food", jobj [("servings",
      jobj [("serving", jarr [jobj [("calories", jstr "100"),
        ("protein", jstr "5"), ("carbohydrate", jstr "20"),
        ("fat", jstr "8")]])])])]) }

/-- A documented tab-4 success body with one product. -/
def offDemo : JVal :=
  jobj [("products", jarr [jobj [("nutriments",
    jobj [("energy-kcal", jnum 150), ("proteins", jnum 7)])]])]

/-- A documented tab-5 guess body with a bare number and a wrapper. -/
def spoonGuessDemo : JVal :=
  jobj [("calories", jnum 300), ("protein", jobj [("value", jnum 12)])]

/-- Witness for the amended C3 at concrete response bodies. -/
theorem C3_success_amended_witness :
    hasAllFourKeys (edamam1Record (jobj [])) = true ∧
    getNutritionEdamam1 (jobj [("calories", jnum 95)])
      = Except.ok (jobj [("calories", jnum 95), ("protein", jnum 0),
                         ("carbs", jnum 0), ("fat", jnum 0)]) ∧
    getNutritionFromOpenAIByName
        ("ok \x7b\"calories\":1,\"protein\":2,\"carbs\":3,\"fat\":4\x7d end".toList)
      = Except.ok (jobj [("calories", jnum 1), ("protein", jnum 2),
                         ("carbs", jnum 3), ("fat", jnum 4)]) ∧
    (isNumeric (getField (edamam1Record edamam1Demo) "calories") = true ∧
     isNumeric (getField (edamam1Record edamam1Demo) "protein") = true ∧
     isNumeric (getField (edamam1Record edamam1Demo) "carbs") = true ∧
     isNumeric (getField (edamam1Record edamam1Demo) "fat") = true) ∧
    (isNumeric (getField (jobj [("calories", jnum 52), ("protein", jnum 0),
        ("carbs", jnum 0), ("fat", jnum 0)]) "calories") = true ∧
     isNumeric (getField (jobj [("calories", jnum 52), ("protein", jnum 0),
        ("carbs", jnum 0), ("fat", jnum 0)]) "protein") = true ∧
     isNumeric (getField (jobj [("calories", jnum 52), ("protein", jnum 0),
        ("carbs", jnum 0), ("fat", jnum 0)]) "carbs") = true ∧
     isNumeric (getField (jobj [("calories", jnum 52), ("protein", jnum 0),
        ("carbs", jnum 0), ("fat", jnum 0)]) "fat") = true) ∧
    (isNumeric (getField (jobj [("calories", jnum 100), ("protein", jnum 5),
        ("carbs", jnum 20), ("fat", jnum 8)]) "calories") = true ∧
     isNumeric (getField (jobj [("calories", jnum 100), ("protein", jnum 5),
        ("carbs", jnum 20), ("fat", jnum 8)]) "protein") = true ∧
     isNumeric (getField (jobj [("calories", jnum 100), ("protein", jnum 5),
        ("carbs", jnum 20), ("fat", jnum 8)]) "carbs") = true ∧
     isNumeric (getField (jobj [("calories", jnum 100), ("protein", jnum 5),
        ("carbs", jnum 20), ("fat", jnum 8)]) "fat") = true) ∧
    (isNumeric (getField (jobj [("calories", jnum 150), ("protein", jnum 7),
        ("carbs", jnum 0), ("fat", jnum 0)]) "calories") = true ∧
     isNumeric (getField (jobj [("calories", jnum 150), ("protein", jnum 7),
        ("carbs", jnum 0), ("fat", jnum 0)]) "protein") = true ∧
     isNumeric (getField (jobj [("calories", jnum 150), ("protein", jnum 7),
        ("carbs", jnum 0), ("fat", jnum 0)]) "carbs") = true ∧
     isNumeric (getField (jobj [("calories", jnum 150), ("protein", jnum 7),
        ("carbs", jnum 0), ("fat", jnum 0)]) "fat") = true) ∧
    (isNumeric (getField (jobj [("calories", jnum 300), ("protein", jnum 12),
        ("carbs", jnum 0), ("fat", jnum 0)]) "calories") = true ∧
     isNumeric (getField (jobj [("calories", jnum 300), ("protein", jnum 12),
        ("carbs", jnum 0), ("fat", jnum 0)]) "protein") = true ∧
     isNumeric (getField (jobj [("calories", jnum 300), ("protein", jnum 12),
        ("carbs", jnum 0), ("fat", jnum 0)]) "carbs") = true ∧
     isNumeric (getField (jobj [("calories", jnum 300), ("protein", jnum 12),
        ("carbs", jnum 0), ("fat", jnum 0)]) "fat") = true) := by
  have h := C3_success_amended
  refine ⟨h.1 (jobj []) (edamam1Record (jobj [])) rfl,
    h.2.2.2.2.2.1 (jobj [("calories", jnum 95)]) rfl,
    h.2.2.2.2.2.2.1
      ("ok \x7b\"calories\":1,\"protein\":2,\"carbs\":3,\"fat\":4\x7d end".toList)
      ("\x7b\"calories\":1,\"protein\":2,\"carbs\":3,\"fat\":4\x7d".toList)
      (jobj [("calories", jnum 1), ("protein", jnum 2),
             ("carbs", jnum 3), ("fat", jnum 4)]) rfl rfl,
    h.2.2.2.2.2.2.2.1 edamam1Demo (edamam1Record edamam1Demo) rfl
      (by decide) (by decide) (by decide) (by decide),
    h.2.2.2.2.2.2.2.2.1 edamam2Demo
      (jobj [("calories", jnum 52), ("protein", jnum 0),
             ("carbs", jnum 0), ("fat", jnum 0)]) rfl
      (by decide) (by decide) (by decide) (by decide),
    h.2.2.2.2.2.2.2.2.2.1 fsEnvSuccess
      (jobj [("calories", jnum 100), ("protein", jnum 5),
             ("carbs", jnum 20), ("fat", jnum 8)])
      (by with_unfolding_all rfl),
    h.2.2.2.2.2.2.2.2.2.2.1 offDemo
      (jobj [("calories", jnum 150), ("protein", jnum 7),
             ("carbs", jnum 0), ("fat", jnum 0)]) rfl
      (by decide) (by decide) (by decide) (by decide) (by decide),
    h.2.2.2.2.2.2.2.2.2.2.2 spoonGuessDemo (jobj []) (jobj [])
      (jobj [("calories", jnum 300), ("protein", jnum 12),
             ("carbs", jnum 0), ("fat", jnum 0)])
      rfl (by decide) (by decide) (by decide) (by decide) ?_⟩
  intro xs hxs x hx
  have hx2 : jarr ([] : List JVal) = jarr xs := hxs
  injection hx2 with he
  subst he
  cases hx

/-- A model response with two JSON objects separated by prose. -/
def c7badText : List Char := "x\x7b\"a\":1\x7d y \x7b\"b\":2\x7d".toList

/-- C7 counterexample: on a response holding two brace spans, the
code slices from the first `'\x7b'` to the LAST `'\x7d'` — not the
first balanced span — so it fails to parse, while extracting and
parsing the first balanced span succeeds; the claim's description of
the extraction is refuted. -/
theorem C7_counterexample :
    (getNutritionFromOpenAIImageCore c7badText).isOk = false ∧
    (specFirstBalancedSpan c7badText).bind jsonParse = some (jobj [("a", jnum 1)]) ∧
    extractJsonText c7badText = some ("\x7b\"a\":1\x7d y \x7b\"b\":2\x7d".toList) :=
  ⟨rfl, rfl, rfl⟩

/-- Case equation: no brace boundary found. -/
theorem imageCore_ext_none {out : List Char}
    (h : extractJsonText out = none) :
    getNutritionFromOpenAIImageCore out
      = Except.error
          ("OpenAI Nutrition image analysis failed: OpenAI nutrition output not JSON: "
            ++ String.mk out) := by
  unfold getNutritionFromOpenAIImageCore
  rw [h]

/-- Case equation: extracted span fails to parse. -/
theorem imageCore_parse_none {out jt : List Char}
    (h : extractJsonText out = some jt) (hp : jsonParse jt = none) :
    getNutritionFromOpenAIImageCore out
      = Except.error "OpenAI Nutrition image analysis failed: JSON.parse error" := by
  unfold getNutritionFromOpenAIImageCore
  rw [h]
  show (match jsonParse jt with
    | some parsed => Except.ok parsed
    | none => Except.error
        "OpenAI Nutrition image analysis failed: JSON.parse error") = _
  rw [hp]

/-- Case equation: extracted span parses. -/
theorem imageCore_parse_some {out jt : List Char} {v : JVal}
    (h : extractJsonText out = some jt) (hp : jsonParse jt = some v) :
    getNutritionFromOpenAIImageCore out = Except.ok v := by
  unfold getNutritionFromOpenAIImageCore
  rw [h]
  show (match jsonParse jt with
    | some parsed => Except.ok parsed
    | none => Except.error
        "OpenAI Nutrition image analysis failed: JSON.parse error") = _
  rw [hp]

/-- C7 (amended): the image-based nutrition operation extracts the
span from the first opening brace to the last closing brace of the
response text (not the first balanced span), parses it — tolerating
prose around a single JSON object — and fails exactly when no opening
or no closing brace exists or when that span fails to parse. -/
theorem C7_extraction_amended (out : List Char) :
    ((getNutritionFromOpenAIImageCore out).isOk = true ↔
      (∃ jt, extractJsonText out = some jt ∧ (jsonParse jt).isSome = true)) ∧
    (∀ jt v, extractJsonText out = some jt → jsonParse jt = some v →
      getNutritionFromOpenAIImageCore out = Except.ok v) ∧
    (extractJsonText out = none ↔
      (charIndexOf out '\x7b' = none ∨ charLastIndexOf out '\x7d' = none)) := by
  refine ⟨?_, ?_, ?_⟩
  · constructor
    · intro hok
      cases hext : extractJsonText out with
      | none => rw [imageCore_ext_none hext] at hok; cases hok
      | some jt =>
        cases hp : jsonParse jt with
        | none => rw [imageCore_parse_none hext hp] at hok; cases hok
        | some v => exact ⟨jt, rfl, by rw [hp]; rfl⟩
    · rintro ⟨jt, hjt, hsome⟩
      cases hp : jsonParse jt with
      | none => rw [hp] at hsome; cases hsome
      | some v => rw [imageCore_parse_some hjt hp]; rfl
  · intro jt v hext hp
    exact imageCore_parse_some hext hp
  · unfold extractJsonText
    cases h1 : charIndexOf out '\x7b' with
    | none =>
      cases h2 : charLastIndexOf out '\x7d' with
      | none => simp
      | some l => simp
    | some f =>
      cases h2 : charLastIndexOf out '\x7d' with
      | none => simp
      | some l => simp

/-- Witness for the amended C7 at the spec's own prose-wrapped example. -/
theorem C7_extraction_amended_witness :
    getNutritionFromOpenAIImageCore
        ("Sure! \x7b\"calories\":250,\"protein\":10,\"carbs\":30,\"fat\":8\x7d Enjoy!".toList)
      = Except.ok (jobj [("calories", jnum 250), ("protein", jnum 10),
                         ("carbs", jnum 30), ("fat", jnum 8)]) :=
  (C7_extraction_amended
      ("Sure! \x7b\"calories\":250,\"protein\":10,\"carbs\":30,\"fat\":8\x7d Enjoy!".toList)).2.1
    ("\x7b\"calories\":250,\"protein\":10,\"carbs\":30,\"fat\":8\x7d".toList)
    (jobj [("calories", jnum 250), ("protein", jnum 10),
           ("carbs", jnum 30), ("fat", jnum 8)])
    rfl rfl

/-- C8: the food-database adapter (tab 2) uses the first parsed
entry's food when it is there, otherwise falls back to the first
hint's food, and fails with its ProviderError when neither yields a
food. -/
theorem C8_parsed_hints_fallback (data : JVal) :
    (truthy (edamam2ParsedFood (jsOr data (jobj []))) = true →
      getNutritionEdamam2 data
        = Except.ok (edamam2Record (edamam2ParsedFood (jsOr data (jobj []))))) ∧
    (truthy (edamam2ParsedFood (jsOr data (jobj []))) = false →
      truthy (edamam2HintFood (jsOr data (jobj []))) = true →
      getNutritionEdamam2 data
        = Except.ok (edamam2Record (edamam2HintFood (jsOr data (jobj []))))) ∧
    (truthy (edamam2ParsedFood (jsOr data (jobj []))) = false →
      truthy (edamam2HintFood (jsOr data (jobj []))) = false →
      getNutritionEdamam2 data = Except.error "Edamam FoodDB failed") := by
  refine ⟨?_, ?_, ?_⟩
  · intro h1
    rw [getNutritionEdamam2_eq, jsOr_truthy h1, h1]
    simp
  · intro h1 h2
    rw [getNutritionEdamam2_eq, jsOr_falsy h1, h2]
    simp
  · intro h1 h2
    rw [getNutritionEdamam2_eq, jsOr_falsy h1, h2]
    simp

/-- Witness for C8 at concrete parsed/hints/empty bodies. -/
theorem C8_parsed_hints_fallback_witness :
    getNutritionEdamam2
        (jobj [("parsed", jarr [jobj [("food",
           jobj [("nutrients", jobj [("ENERC_KCAL", jnum 52)])])]]),
         ("hints", jarr [jobj [("food",
           jobj [("nutrients", jobj [("ENERC_KCAL", jnum 99)])])]])])
      = Except.ok (jobj [("calories", jnum 52), ("protein", jnum 0),
                         ("carbs", jnum 0), ("fat", jnum 0)]) ∧
    getNutritionEdamam2
        (jobj [("hints", jarr [jobj [("food",
           jobj [("nutrients", jobj [("ENERC_KCAL", jnum 99)])])]])])
      = Except.ok (jobj [("calories", jnum 99), ("protein", jnum 0),
                         ("carbs", jnum 0), ("fat", jnum 0)]) ∧
    getNutritionEdamam2 (jobj [])
      = Except.error "Edamam FoodDB failed" := by
  refine ⟨?_, ?_, ?_⟩
  · exact (C8_parsed_hints_fallback _).1 (by decide)
  · exact (C8_parsed_hints_fallback _).2.1 (by decide) (by decide)
  · exact (C8_parsed_hints_fallback _).2.2 (by decide) (by decide)

/-- Reading back the key just set. -/
theorem lookupField_setFieldList (fs : List (String × JVal)) (k : String) (x : JVal) :
    lookupField (setFieldList fs k x) k = x := by
  induction fs with
  | nil => simp [setFieldList, lookupField]
  | cons p t ih =>
    obtain ⟨k0, v0⟩ := p
    by_cases hk : (k0 == k) = true
    · simp [setFieldList, hk, lookupField]
    · simp [setFieldList, hk, lookupField, ih]

/-- Reading back the field just assigned on an object. -/
theorem getField_setField_obj (fs : List (String × JVal)) (k : String) (x : JVal) :
    getField (setField (jobj fs) k x) k = x := by
  simp [setField, getField, lookupField_setFieldList]

/-- A non-empty string is truthy. -/
theorem truthy_jstr_ne {s : String} (h : s ≠ "") : truthy (jstr s) = true := by
  simp [truthy, h]

/-- C9: on the tab-6 analyze path, when the parsed vision-nutrition
object lacks a truthy `foodName`, the handler backfills it with the
dish name from the earlier recognition call before responding; the
response's nutrition object therefore always carries a truthy
`foodName`, and whenever the model omitted one it equals the
top-level `foodName`. -/
theorem C9_foodName_backfill (env : PipelineEnv) (image tab : JVal)
    (name out : String) (v : JVal)
    (himg : truthy image = true) (htab : truthy tab = true)
    (hrec : env.recognizeResult = Except.ok name) (hname : name ≠ "")
    (h6 : toNumber tab = some 6)
    (hio : env.imageNutritionOut = Except.ok out)
    (hcore : getNutritionFromOpenAIImageCore out.toList = Except.ok v)
    (hobj : isObj v = true) :
    analyzeImageHandler env image tab
      = (⟨200, jobj [("foodName", jstr name),
          ("nutrition", if truthy (getField v "foodName") then v
            else setField v "foodName" (jstr name))]⟩,
         [NetCall.recognition, NetCall.imageNutrition]) ∧
    truthy (getField (if truthy (getField v "foodName") then v
      else setField v "foodName" (jstr name)) "foodName") = true ∧
    (truthy (getField v "foodName") = false →
      getField (if truthy (getField v "foodName") then v
        else setField v "foodName" (jstr name)) "foodName" = jstr name) := by
  obtain ⟨r, io, pr⟩ := env
  obtain rfl : r = Except.ok name := hrec
  obtain rfl : io = Except.ok out := hio
  have hcore2 : getNutritionFromOpenAIImageCore out.data = Except.ok v := hcore
  refine ⟨?_, ?_, ?_⟩
  · simp [analyzeImageHandler, himg, htab, h6, hcore2]
  · cases hf : truthy (getField v "foodName") with
    | true => simp [hf]
    | false =>
      cases v with
      | jobj fs =>
        simp [hf, getField_setField_obj, truthy_jstr_ne hname]
      | jundef => cases hobj
      | jnull => cases hobj
      | jbool b => cases hobj
      | jnum q => cases hobj
      | jnan => cases hobj
      | jstr s => cases hobj
      | jarr xs => cases hobj
  · intro hf
    cases v with
    | jobj fs => simp [hf, getField_setField_obj]
    | jundef => cases hobj
    | jnull => cases hobj
    | jbool b => cases hobj
    | jnum q => cases hobj
    | jnan => cases hobj
    | jstr s => cases hobj
    | jarr xs => cases hobj

/-- Tab-6 mock: recognition and image-nutrition both succeed, the
model's JSON omitting `foodName`. -/
def mockEnvTab6 : PipelineEnv :=
  { recognizeResult := Except.ok "pizza"
    imageNutritionOut := Except.ok
      "ok! \x7b\"calories\":250,\"protein\":10,\"carbs\":30,\"fat\":8\x7d done"
    providerResult := fun _ => Except.ok (jobj []) }

/-- Witness for C9 at a concrete tab-6 run. -/
theorem C9_foodName_backfill_witness :
    analyzeImageHandler mockEnvTab6 (jstr "img") (jnum 6)
      = (⟨200, jobj [("foodName", jstr "pizza"),
          ("nutrition", jobj [("calories", jnum 250), ("protein", jnum 10),
            ("carbs", jnum 30), ("fat", jnum 8), ("foodName", jstr "pizza")])]⟩,
         [NetCall.recognition, NetCall.imageNutrition]) := by
  have h := C9_foodName_backfill mockEnvTab6 (jstr "img") (jnum 6) "pizza"
    "ok! \x7b\"calories\":250,\"protein\":10,\"carbs\":30,\"fat\":8\x7d done"
    (jobj [("calories", jnum 250), ("protein", jnum 10),
           ("carbs", jnum 30), ("fat", jnum 8)])
    (by decide) (by decide) rfl (by decide) (by decide) rfl rfl rfl
  exact h.1
